import Mathlib

/-!
Verification of the CanvasGPT conversation orchestrator
(`backend/agents/supervisor.py` together with the Canvas parameter
extractors in `backend/agents/canvas/assignment.py` and
`backend/agents/canvas/announcement.py`).

The Python orchestrator is shallowly embedded as pure Lean functions.
External capability ports (the LLM, the Canvas HTTP backend, the document
extractor and the web fetcher) are opaque collaborators in the source; each
call site receives its outcome from an explicit `Env` record of per-turn
oracle values, so the orchestrator itself is a total function of the
incoming message, the oracle and the current `SupervisorState`.
-/

/-! ## Python string primitives used by the supervisor -/

/-- Whitespace characters recognised by Python `str.strip()` and `\s`
(ASCII subset, which is all the supervisor ever feeds it). -/
def isSpaceChar (c : Char) : Bool :=
  c == ' ' || c == '\t' || c == '\n' || c == '\r' || c == '\x0b' || c == '\x0c'

/-- Python `str.lower()` (ASCII case folding). -/
def lowerStr (s : String) : String :=
  String.mk (s.data.map Char.toLower)

/-- Python `str.strip()` on a character list. -/
def stripChars (l : List Char) : List Char :=
  ((l.dropWhile isSpaceChar).reverse.dropWhile isSpaceChar).reverse

/-- Python `str.strip()`. -/
def strip (s : String) : String :=
  String.mk (stripChars s.data)

/-- Does `hay` start with `needle` (case sensitive)? -/
def startsWithL : List Char → List Char → Bool
  | _, [] => true
  | [], _ :: _ => false
  | c :: cs, d :: ds => c == d && startsWithL cs ds

/-- Does `hay` start with the (lower-case) `needle`, comparing case
insensitively? -/
def startsWithCI : List Char → List Char → Bool
  | _, [] => true
  | [], _ :: _ => false
  | c :: cs, d :: ds => Char.toLower c == d && startsWithCI cs ds

/-- Python `needle in hay` substring test. -/
def containsL : List Char → List Char → Bool
  | [], needle => needle.isEmpty
  | hay@(_ :: rest), needle => startsWithL hay needle || containsL rest needle

/-- Numeric value of a digit string (`int(...)` on a `\d+` match). -/
def digitsVal (l : List Char) : Nat :=
  l.foldl (fun acc c => acc * 10 + (c.toNat - 48)) 0

/-- Maximal leading digit run and the remainder. -/
def takeDigits (l : List Char) : List Char × List Char :=
  (l.takeWhile Char.isDigit, l.dropWhile Char.isDigit)

/-! ## `_extract_title` (supervisor.py lines 173-179)

Python: if `"title:" in message.lower()`, search
`title:\s*([^\n]+)` (IGNORECASE) and return `group(1).strip()`,
else `None`.  The scan below reproduces `re.search` semantics: at the
first position where the whole pattern matches, `\s*` greedily eats
whitespace (newlines included) and `[^\n]+` takes the rest of the line.
When only whitespace follows the marker, the regex still matches by
backtracking as long as that whitespace contains ANY character other
than a newline: `\s*` hands chars back from the end until it stops at a
non-newline one, `[^\n]+` takes a run of whitespace from there (nothing
after the group needs to match), and the group strips to the empty
string.  Only a marker followed exclusively by newlines (or by nothing)
fails and lets the search move on. -/

/-- Raw regex group of `title:\s*([^\n]+)`, scanning left to right. -/
def findTitleRaw : List Char → Option (List Char)
  | [] => none
  | l@(_ :: rest) =>
    if startsWithCI l ['t', 'i', 't', 'l', 'e', ':'] then
      let a := l.drop 6
      let w := a.takeWhile isSpaceChar
      let g := (a.dropWhile isSpaceChar).takeWhile (fun c => !(c == '\n'))
      if !g.isEmpty then some g
      else if w.any (fun c => !(c == '\n')) then some []
      else findTitleRaw rest
    else findTitleRaw rest

/-- `CanvasGPTSupervisor._extract_title`. -/
def extract_title (message : String) : Option String :=
  (findTitleRaw message.data).map (fun g => String.mk (stripChars g))

/-! ## Course bracket `re.search(r'\[(.*?)\]', message)`

`.` does not match a newline, so the match is the leftmost `[` that is
closed by a `]` on the same line; the lazy group stops at the first `]`. -/

/-- Scan for the closing `]` on the same line, accumulating the group. -/
def scanClose : List Char → List Char → Option (List Char)
  | [], _ => none
  | ']' :: _, acc => some acc.reverse
  | '\n' :: _, _ => none
  | c :: rest, acc => scanClose rest (c :: acc)

/-- Leftmost `\[(.*?)\]` match group, or `none`. -/
def firstBracket : List Char → Option String
  | [] => none
  | '[' :: rest =>
    match scanClose rest [] with
    | some inner => some (String.mk inner)
    | none => firstBracket rest
  | _ :: rest => firstBracket rest

/-! ## Points `re.search(r'points\s*should\s*be\s*(\d+)', message)`
(supervisor.py line 834, case sensitive, on the raw message). -/

/-- Leftmost match of the supervisor points pattern. -/
def matchPoints : List Char → Option Nat
  | [] => none
  | l@(_ :: rest) =>
    if startsWithL l ['p', 'o', 'i', 'n', 't', 's'] then
      let a := (l.drop 6).dropWhile isSpaceChar
      if startsWithL a ['s', 'h', 'o', 'u', 'l', 'd'] then
        let b := (a.drop 6).dropWhile isSpaceChar
        if startsWithL b ['b', 'e'] then
          let c := (b.drop 2).dropWhile isSpaceChar
          let ds := c.takeWhile Char.isDigit
          if ds.isEmpty then matchPoints rest else some (digitsVal ds)
        else matchPoints rest
      else matchPoints rest
    else matchPoints rest

/-! ## `AssignmentAgent.SUBMISSION_TYPES` and `parse_submission_types`
(assignment.py lines 15-25 and 152-166). -/

/-- The keyword-phrase to Canvas-enumeration table, in source order. -/
def SUBMISSION_TYPES : List (String × List String) :=
  [("no submission", ["none"]),
   ("text entry", ["online_text_entry"]),
   ("website url", ["online_url"]),
   ("file uploads", ["online_upload"]),
   ("media recording", ["media_recording"]),
   ("student annotation", ["student_annotation"]),
   ("external tool", ["external_tool"]),
   ("on paper", ["on_paper"]),
   ("online", ["online_text_entry", "online_url", "online_upload",
               "media_recording"])]

/-- The table entries whose key phrase occurs in the lowered query. -/
def matchedSubmissionKeys (query : String) : List (String × List String) :=
  SUBMISSION_TYPES.filter (fun kv => containsL (lowerStr query).data kv.1.data)

/-- `AssignmentAgent.parse_submission_types`.  The final Python
`list(set(...))` is modelled as order-preserving deduplication; CPython
set iteration order is unspecified, and every property proved below only
concerns singleton or default results, where the order is forced. -/
def parse_submission_types (query : String) : List String :=
  let collected := (matchedSubmissionKeys query).foldl (fun acc kv => acc ++ kv.2) []
  let base := if collected.isEmpty then ["online_text_entry"] else collected
  base.eraseDups

/-! ## `AssignmentAgent.parse_due_date` (assignment.py lines 173-206)

Regex `due\s*(?:date|on|by)?\s*(\d{1,2}/\d{1,2}/\d{4}\s+\d{1,2}:\d{2}\s*(?:AM|PM|am|pm))`
with IGNORECASE, then `datetime.strptime(date_str, "%m/%d/%Y %I:%M %p")`,
UTC tagging, and `strftime("%Y-%m-%dT%H:%M:%SZ")`.  A `ValueError` from
`strptime` (out-of-range field or impossible calendar day) yields `None`. -/

/-- The fields captured by the due-date regex group.
`spaceBeforeMeridiem` records whether the captured string has at least
one whitespace character between the minutes and the AM/PM marker: the
capture regex allows `\s*` there, but `strptime`'s format `"%M %p"`
compiles the literal space to `\s+`, so a capture without it raises
`ValueError`. -/
structure DueParts where
  month : Nat
  day : Nat
  year : Nat
  hour : Nat
  minute : Nat
  pm : Bool
  spaceBeforeMeridiem : Bool
deriving Repr, DecidableEq

/-- Match `\d{1,2}/\d{1,2}/\d{4}\s+\d{1,2}:\d{2}\s*(?:AM|PM|am|pm)` at the
head of the list.  Digit runs longer than the quantifier bound make the
following literal fail, exactly as under regex backtracking. -/
def matchDueBody (l : List Char) : Option DueParts :=
  let (mo, r1) := takeDigits l
  if mo.length < 1 || mo.length > 2 then none else
  match r1 with
  | '/' :: r2 =>
    let (d, r3) := takeDigits r2
    if d.length < 1 || d.length > 2 then none else
    match r3 with
    | '/' :: r4 =>
      let (y, r5) := takeDigits r4
      if !(y.length == 4) then none else
      if (r5.takeWhile isSpaceChar).isEmpty then none else
      let r6 := r5.dropWhile isSpaceChar
      let (h, r7) := takeDigits r6
      if h.length < 1 || h.length > 2 then none else
      match r7 with
      | ':' :: r8 =>
        let (mi, r9) := takeDigits r8
        if !(mi.length == 2) then none else
        match r9.dropWhile isSpaceChar with
        | a :: p :: _ =>
          if Char.toLower p == 'm' &&
             (Char.toLower a == 'a' || Char.toLower a == 'p') then
            some ⟨digitsVal mo, digitsVal d, digitsVal y, digitsVal h,
                  digitsVal mi, Char.toLower a == 'p',
                  !(r9.takeWhile isSpaceChar).isEmpty⟩
          else none
        | _ => none
      | _ => none
    | _ => none
  | _ => none

/-- Leftmost match of the whole due-date pattern: literal `due`, optional
whitespace, optional `date`/`on`/`by` alternation (tried in that order,
then the empty alternative), optional whitespace, then the date body. -/
def scanDue : List Char → Option DueParts
  | [] => none
  | l@(_ :: rest) =>
    if startsWithCI l ['d', 'u', 'e'] then
      let a := (l.drop 3).dropWhile isSpaceChar
      let tryDate :=
        if startsWithCI a ['d', 'a', 't', 'e'] then
          matchDueBody ((a.drop 4).dropWhile isSpaceChar)
        else none
      match tryDate with
      | some p => some p
      | none =>
        let tryOn :=
          if startsWithCI a ['o', 'n'] then
            matchDueBody ((a.drop 2).dropWhile isSpaceChar)
          else none
        match tryOn with
        | some p => some p
        | none =>
          let tryBy :=
            if startsWithCI a ['b', 'y'] then
              matchDueBody ((a.drop 2).dropWhile isSpaceChar)
            else none
          match tryBy with
          | some p => some p
          | none =>
            match matchDueBody a with
            | some p => some p
            | none => scanDue rest
    else scanDue rest

/-- Gregorian leap-year test, as performed by `datetime`. -/
def isLeap (y : Nat) : Bool :=
  (y % 4 == 0 && !(y % 100 == 0)) || y % 400 == 0

/-- Days in a month, as validated by the `datetime` constructor. -/
def daysInMonth (y m : Nat) : Nat :=
  if m == 2 then (if isLeap y then 29 else 28)
  else if m == 4 || m == 6 || m == 9 || m == 11 then 30
  else 31

/-- The validation performed by
`strptime(date_str, "%m/%d/%Y %I:%M %p")` plus the `datetime`
constructor: month 1-12, hour 1-12 on the 12-hour clock, minute 0-59,
year at least 1, a day that exists in that month, and at least one
whitespace character between the minutes and AM/PM (the format's
literal space compiles to `\s+`, stricter than the capture's `\s*`). -/
def strptimeValid (p : DueParts) : Bool :=
  1 ≤ p.month && p.month ≤ 12 && 1 ≤ p.day && p.day ≤ daysInMonth p.year p.month
    && 1 ≤ p.hour && p.hour ≤ 12 && p.minute ≤ 59 && 1 ≤ p.year
    && p.spaceBeforeMeridiem

/-- Zero-padded two-digit decimal field of `strftime`. -/
def pad2 (n : Nat) : String :=
  if n < 10 then "0" ++ toString n else toString n

/-- Zero-padded four-digit decimal field of `strftime`. -/
def pad4 (n : Nat) : String :=
  if n < 10 then "000" ++ toString n
  else if n < 100 then "00" ++ toString n
  else if n < 1000 then "0" ++ toString n
  else toString n

/-- `AssignmentAgent.parse_due_date`: regex scan, `strptime` validation,
12-hour to 24-hour conversion, and ISO-8601 UTC rendering.  Any parse
failure returns `none` rather than an error. -/
def parse_due_date (query : String) : Option String :=
  match scanDue query.data with
  | none => none
  | some p =>
    if strptimeValid p then
      let h24 :=
        if p.pm then (if p.hour == 12 then 12 else p.hour + 12)
        else (if p.hour == 12 then 0 else p.hour)
      some (pad4 p.year ++ "-" ++ pad2 p.month ++ "-" ++ pad2 p.day ++ "T" ++
            pad2 h24 ++ ":" ++ pad2 p.minute ++ ":00Z")
    else none

/-! ## Page URL marker `re.search(r'link:(https?://[^\s]+)', message)` -/

/-- Leftmost `link:(https?://[^\s]+)` match group, or `none`. -/
def findLink : List Char → Option String
  | [] => none
  | l@(_ :: rest) =>
    if startsWithL l ['l', 'i', 'n', 'k', ':'] then
      let a := l.drop 5
      let url := a.takeWhile (fun c => !isSpaceChar c)
      if (startsWithL url ['h', 't', 't', 'p', 's', ':', '/', '/'] &&
            url.length > 8) ||
         (startsWithL url ['h', 't', 't', 'p', ':', '/', '/'] &&
            !startsWithL url ['h', 't', 't', 'p', 's'] && url.length > 7) then
        some (String.mk url)
      else findLink rest
    else findLink rest

/-! ## Data model (supervisor.py `Message`, `SupervisorState`, pending dicts) -/

/-- A metadata value: the supervisor stores the boolean `has_file` flag and
string file fields in the same dict. -/
inductive MetaVal where
  | boolV : Bool → MetaVal
  | strV : String → MetaVal
deriving Repr, DecidableEq

/-- One conversation turn (`Message` pydantic model, supervisor.py 18-23). -/
structure Message where
  content : String
  type : String
  role : String
  metadata : List (String × MetaVal)
deriving Repr, DecidableEq

/-- Insert or overwrite one key, as Python `dict` assignment does:
an existing key keeps its position, a new key is appended. -/
def dictInsert (d : List (String × MetaVal)) (k : String) (v : MetaVal) :
    List (String × MetaVal) :=
  if d.any (fun p => p.1 == k) then
    d.map (fun p => if p.1 == k then (k, v) else p)
  else d ++ [(k, v)]

/-- Python `dict.update` with a list of key-value pairs. -/
def dictUpdate (d : List (String × MetaVal)) (kvs : List (String × MetaVal)) :
    List (String × MetaVal) :=
  kvs.foldl (fun acc kv => dictInsert acc kv.1 kv.2) d

/-- The staged quiz dict (supervisor.py 768-772). -/
structure PendingQuiz where
  course_name : String
  content : String
  title : String
deriving Repr, DecidableEq

/-- The staged announcement dict (supervisor.py 519-531).  `file_content`
and `filename` model key presence: `none` means the key is absent. -/
structure PendingAnnouncement where
  course_name : String
  content : String
  title : String
  file_content : Option String
  filename : Option String
deriving Repr, DecidableEq

/-- The staged assignment dict (supervisor.py 841-858).  The title is an
`Option` because `_handle_assignment_request` stores the raw
`_extract_title` result without a default. -/
structure PendingAssignment where
  course_name : String
  content : String
  title : Option String
  points : Nat
  submission_types : List String
  file_content : Option String
  file_name : Option String
deriving Repr, DecidableEq

/-- The staged page dict (supervisor.py 460-472). -/
structure PendingPage where
  course_name : String
  content : String
  title : Option String
  file_content : Option String
  file_name : Option String
deriving Repr, DecidableEq

/-- The whole mutable supervisor state: the turn log
(`SupervisorState.messages`) plus the four ad-hoc pending-action
attributes set in `__init__` (supervisor.py 77-80). -/
structure SupervisorState where
  messages : List Message
  pending_quiz : Option PendingQuiz
  pending_announcement : Option PendingAnnouncement
  pending_assignment : Option PendingAssignment
  pending_page : Option PendingPage
deriving Repr, DecidableEq

/-- State right after `__init__` / `reset_state`. -/
def initialState : SupervisorState :=
  ⟨[], none, none, none, none⟩

/-- The response dict returned by `process_message` (the
`conversation_id` field, `id(self.state)`, carries no information at
this level and is omitted). -/
structure Response where
  response : String
  agent : String
deriving Repr, DecidableEq

/-! ## Capability-port oracles -/

/-- Outcome of a Canvas execution call (`canvas_agent.process`,
`create_assignment`, ...): a success dict, a failure dict carrying the
backend `message`/`error` text, or a raised exception carrying `str(e)`.
The Python `get(..., 'Unknown error')` defaults are folded into the
carried string. -/
inductive ExecOutcome where
  | success
  | failure (msg : String)
  | raised (msg : String)
deriving Repr, DecidableEq

/-- Outcome of `canvas_agent.get_course_id`. -/
inductive CourseLookup where
  | found (id : String)
  | notFound
  | raised (msg : String)
deriving Repr, DecidableEq

/-- Outcome of `document_handler.process_file`. -/
inductive FileOutcome where
  | ok (content fileType filename : String)
  | err (msg : String)
deriving Repr, DecidableEq

/-- Per-turn oracle for every external capability call the supervisor can
make while handling one message: the routing label (the LLM reply of
`_route_message`, or a fast-path label), the `_clean_content_with_llm`
result, the raw LLM reply of `AnnouncementAgent.generate_title` (`none`
models a raised exception there), the document-extractor outcome, the
Canvas execution and course-lookup outcomes, the web fetch used by the
page URL branch, and the composed response texts of the read-only
branches (PDF listing, RAG query, course listing, web search, general
chat). -/
structure Env where
  route : String
  cleaned : String
  genTitleLLM : Option String
  fileOutcome : FileOutcome
  exec : ExecOutcome
  execFileUrl : Bool
  lookup : CourseLookup
  urlFetchOk : Bool
  urlFetchContent : String
  urlFetchErr : String
  pdfResponse : String
  ragResponse : String
  webResponse : String
  generalResponse : String
  listResponse : String
deriving Repr, DecidableEq

/-- The `content` argument handed to the request handlers: either the
conversation-context string, or the file dict built in `process_message`
(text, file_content, filename, file_type). -/
inductive ContentArg where
  | text (s : String)
  | fileDict (text fileContent filename fileType : String)
deriving Repr, DecidableEq

/-- Python truthiness of an optional string. -/
def truthyOpt (o : Option String) : Bool :=
  !((o.getD "") == "")

/-- Python `f"...{t}..."` rendering of an optional string (`None` prints
as the literal `None`). -/
def pyOptStr (o : Option String) : String :=
  match o with
  | some s => s
  | none => "None"

/-- The fixed not-configured reply used by every Canvas handler. -/
def notConfiguredMsg : String :=
  "Canvas is not configured. Please provide Canvas API credentials."

/-- The fixed missing-course-bracket reply. -/
def bracketPrompt : String :=
  "Please specify a course name in square brackets, e.g. [Course Name]"

/-- `AnnouncementAgent.generate_title` (announcement.py 12-34): the
stripped LLM reply, or the fixed fallback string when the call raises. -/
def generate_title (llmReply : Option String) : String :=
  match llmReply with
  | some t => strip t
  | none => "Generated Content"

/-! ## Confirmation / cancellation vocabulary (supervisor.py 201, 212) -/

/-- Confirmation vocabulary, compared against `message.lower()`. -/
def confirmList : List String :=
  ["yes", "post it", "post", "yes post it"]

/-- Cancellation vocabulary, compared against `message.lower()`. -/
def cancelList : List String :=
  ["no", "cancel", "dont post", "don\x27t post"]

/-! ## Request handlers (staging) -/

/-- `_handle_quiz_request` (supervisor.py 745-785).  The `content`
argument of the Python method is never used for staging, so it is not a
parameter here.  `cc` is whether `canvas_agent` is configured. -/
def handleQuizRequest (cc : Bool) (env : Env) (message : String)
    (st : SupervisorState) : SupervisorState × Response :=
  if !cc then (st, ⟨notConfiguredMsg, "canvas_quiz"⟩)
  else
    match firstBracket message.data with
    | none => (st, ⟨bracketPrompt, "canvas_quiz"⟩)
    | some course_name =>
      let title :=
        match extract_title message with
        | some t => if t == "" then "Quiz" else t
        | none => "Quiz"
      let cleaned := env.cleaned
      ({ st with pending_quiz := some ⟨course_name, cleaned, title⟩ },
       ⟨"I\x27ve prepared the quiz for " ++ course_name ++ ":\nTitle: " ++
          title ++ "\n\nContent:\n" ++ cleaned ++
          "\n\nWould you like me to create this quiz? (Reply with \x27yes\x27 to create or \x27no\x27 to cancel)",
        "canvas_quiz"⟩)

/-- `_handle_post_request` (supervisor.py 491-548): stage an announcement.
When no explicit title is present (or it strips to the empty string,
which is falsy in Python), `AnnouncementAgent.generate_title` supplies
one. -/
def handlePostRequest (cc : Bool) (env : Env) (message : String)
    (contentArg : ContentArg) (st : SupervisorState) :
    SupervisorState × Response :=
  if !cc then (st, ⟨notConfiguredMsg, "canvas_post"⟩)
  else
    match firstBracket message.data with
    | none => (st, ⟨bracketPrompt, "canvas_post"⟩)
    | some course_name =>
      let title :=
        match extract_title message with
        | some t => if t == "" then generate_title env.genTitleLLM else t
        | none => generate_title env.genTitleLLM
      let cleaned := env.cleaned
      let pend : PendingAnnouncement :=
        match contentArg with
        | .fileDict _ fc fn _ =>
          if !(fc == "") then ⟨course_name, cleaned, title, some fc, some fn⟩
          else ⟨course_name, cleaned, title, none, none⟩
        | .text _ => ⟨course_name, cleaned, title, none, none⟩
      let fileLine :=
        if pend.file_content.isSome then
          "File to be uploaded: " ++ pyOptStr pend.filename ++ "\n\n"
        else ""
      ({ st with pending_announcement := some pend },
       ⟨"Here\x27s the announcement for " ++ course_name ++ ":\nTitle: " ++
          title ++ "\n" ++ cleaned ++ "\n\n" ++ fileLine ++
          "Would you like me to post this announcement? (Reply with \x27yes\x27 to post or \x27no\x27 to cancel)",
        "canvas_post"⟩)

/-- `_handle_assignment_request` (supervisor.py 814-876): stage an
assignment.  Note that the title gets no default, points default to 100,
and no due date is extracted or stored. -/
def handleAssignmentRequest (cc : Bool) (env : Env) (message : String)
    (contentArg : ContentArg) (st : SupervisorState) :
    SupervisorState × Response :=
  if !cc then (st, ⟨notConfiguredMsg, "canvas_assignment"⟩)
  else
    match firstBracket message.data with
    | none => (st, ⟨bracketPrompt, "canvas_assignment"⟩)
    | some course_name =>
      let title := extract_title message
      let points := (matchPoints message.data).getD 100
      let cleaned := env.cleaned
      let subs := parse_submission_types message
      let pend : PendingAssignment :=
        match contentArg with
        | .fileDict _ fc fn _ =>
          if !(fc == "") then
            ⟨course_name, cleaned, title, points, subs, some fc, some fn⟩
          else ⟨course_name, cleaned, title, points, subs, none, none⟩
        | .text _ => ⟨course_name, cleaned, title, points, subs, none, none⟩
      let fileLine :=
        if pend.file_content.isSome then
          "File to be attached: " ++ pyOptStr pend.file_name ++ "\n\n"
        else ""
      ({ st with pending_assignment := some pend },
       ⟨"I\x27ve prepared the assignment for " ++ course_name ++
          ":\nTitle: " ++ pyOptStr title ++ "\nPoints: " ++ toString points ++
          "\nContent:\n" ++ cleaned ++ "\n\n" ++ fileLine ++
          "Would you like me to create this assignment? (Reply with \x27yes\x27 to create or \x27no\x27 to cancel)",
        "canvas_assignment"⟩)

/-- `_handle_page_request` (supervisor.py 419-489): stage a page, with the
`link:<url>` branch fetching web content first; a failed fetch aborts
without staging. -/
def handlePageRequest (cc : Bool) (env : Env) (message : String)
    (contentArg : ContentArg) (st : SupervisorState) :
    SupervisorState × Response :=
  if !cc then (st, ⟨notConfiguredMsg, "canvas_page"⟩)
  else
    match firstBracket message.data with
    | none => (st, ⟨bracketPrompt, "canvas_page"⟩)
    | some course_name =>
      let title := extract_title message
      let contentRes : Option String :=
        match findLink message.data with
        | some url =>
          if env.urlFetchOk then
            some (env.urlFetchContent ++ "\n\nSource: " ++ url)
          else none
        | none => some env.cleaned
      match contentRes with
      | none =>
        (st, ⟨"Failed to extract content from URL: " ++ env.urlFetchErr,
              "canvas_page"⟩)
      | some cleaned =>
        let pend : PendingPage :=
          match contentArg with
          | .fileDict _ fc fn _ =>
            if !(fc == "") then ⟨course_name, cleaned, title, some fc, some fn⟩
            else ⟨course_name, cleaned, title, none, none⟩
          | .text _ => ⟨course_name, cleaned, title, none, none⟩
        let fileLine :=
          if pend.file_content.isSome then
            "File to be attached: " ++ pyOptStr pend.file_name ++ "\n\n"
          else ""
        ({ st with pending_page := some pend },
         ⟨"I\x27ve prepared the page for " ++ course_name ++ ":\nTitle: " ++
            pyOptStr title ++ "\nContent:\n" ++ cleaned ++ "\n\n" ++ fileLine ++
            "Would you like me to create this page? (Reply with \x27yes\x27 to create or \x27no\x27 to cancel)",
          "canvas_page"⟩)

/-! ## Confirmation and cancellation handlers -/

/-- `_handle_quiz_confirmation` (supervisor.py 549-582).  The clearing of
`pending_quiz` sits inside the `try` block, so a raised exception leaves
the quiz staged.  The `none` case models the `TypeError` a `None`
subscript would raise inside the same `try` (unreachable from
`process_message`, which only dispatches here when a quiz is staged). -/
def handleQuizConfirmation (cc : Bool) (env : Env) (st : SupervisorState) :
    SupervisorState × Response :=
  if !cc then (st, ⟨notConfiguredMsg, "canvas_quiz"⟩)
  else
    match st.pending_quiz with
    | none =>
      (st, ⟨"Error creating quiz: pending quiz missing", "canvas_quiz"⟩)
    | some q =>
      match env.exec with
      | .success =>
        ({ st with pending_quiz := none },
         ⟨"Successfully created quiz in " ++ q.course_name ++ "!",
          "canvas_quiz"⟩)
      | .failure m =>
        ({ st with pending_quiz := none },
         ⟨"Failed to create quiz: " ++ m, "canvas_quiz"⟩)
      | .raised m =>
        (st, ⟨"Error creating quiz: " ++ m, "canvas_quiz"⟩)

/-- `_handle_announcement_confirmation` (supervisor.py 585-639): clears
the slot on success and on backend-reported failure, but the `except`
path returns with the announcement still staged. -/
def handleAnnouncementConfirmation (cc : Bool) (env : Env)
    (st : SupervisorState) : SupervisorState × Response :=
  if !cc then (st, ⟨notConfiguredMsg, "canvas_post"⟩)
  else
    match st.pending_announcement with
    | none =>
      (st, ⟨"Error posting announcement: pending announcement missing",
            "canvas_post"⟩)
    | some a =>
      match env.exec with
      | .success =>
        ({ st with pending_announcement := none },
         ⟨"Successfully posted announcement" ++
            (if truthyOpt a.file_content then " with file attachment" else "")
            ++ " to " ++ a.course_name ++ "!",
          "canvas_post"⟩)
      | .failure m =>
        ({ st with pending_announcement := none },
         ⟨"Failed to post announcement: " ++ m, "canvas_post"⟩)
      | .raised m =>
        (st, ⟨"Error posting announcement: " ++ m, "canvas_post"⟩)

/-- `_handle_assignment_confirmation` (supervisor.py 643-706): a failed
course lookup returns early with the assignment still staged; a raised
exception likewise; success and backend-reported failure both clear. -/
def handleAssignmentConfirmation (cc : Bool) (env : Env)
    (st : SupervisorState) : SupervisorState × Response :=
  if !cc then (st, ⟨notConfiguredMsg, "canvas_assignment"⟩)
  else
    match st.pending_assignment with
    | none =>
      (st, ⟨"Error creating assignment: pending assignment missing",
            "canvas_assignment"⟩)
    | some a =>
      match env.lookup with
      | .raised m =>
        (st, ⟨"Error creating assignment: " ++ m, "canvas_assignment"⟩)
      | .notFound =>
        (st, ⟨"Could not find course: " ++ a.course_name,
              "canvas_assignment"⟩)
      | .found _ =>
        match env.exec with
        | .success =>
          ({ st with pending_assignment := none },
           ⟨"Successfully created assignment in " ++ a.course_name ++ "!" ++
              (if env.execFileUrl then
                "\nFile uploaded and attached to the assignment." else ""),
            "canvas_assignment"⟩)
        | .failure m =>
          ({ st with pending_assignment := none },
           ⟨"Failed to create assignment: " ++ m, "canvas_assignment"⟩)
        | .raised m =>
          (st, ⟨"Error creating assignment: " ++ m, "canvas_assignment"⟩)

/-- `_handle_page_confirmation` (supervisor.py 381-415): same clearing
discipline as the quiz handler. -/
def handlePageConfirmation (cc : Bool) (env : Env) (st : SupervisorState) :
    SupervisorState × Response :=
  if !cc then (st, ⟨notConfiguredMsg, "canvas_page"⟩)
  else
    match st.pending_page with
    | none =>
      (st, ⟨"Error creating page: pending page missing", "canvas_page"⟩)
    | some p =>
      match env.exec with
      | .success =>
        ({ st with pending_page := none },
         ⟨"Successfully created page in " ++ p.course_name ++ "!",
          "canvas_page"⟩)
      | .failure m =>
        ({ st with pending_page := none },
         ⟨"Failed to create page: " ++ m, "canvas_page"⟩)
      | .raised m =>
        (st, ⟨"Error creating page: " ++ m, "canvas_page"⟩)

/-- `_handle_cancellation` (supervisor.py 709-743): drop the first staged
action in the fixed order quiz, announcement, assignment, page. -/
def handleCancellation (st : SupervisorState) : SupervisorState × Response :=
  match st.pending_quiz with
  | some _ =>
    ({ st with pending_quiz := none },
     ⟨"Quiz creation cancelled.", "canvas_quiz"⟩)
  | none =>
    match st.pending_announcement with
    | some _ =>
      ({ st with pending_announcement := none },
       ⟨"Announcement cancelled.", "canvas_post"⟩)
    | none =>
      match st.pending_assignment with
      | some _ =>
        ({ st with pending_assignment := none },
         ⟨"Assignment creation cancelled.", "canvas_assignment"⟩)
      | none =>
        match st.pending_page with
        | some _ =>
          ({ st with pending_page := none },
           ⟨"Page creation cancelled.", "canvas_page"⟩)
        | none => (st, ⟨"Nothing to cancel.", "general"⟩)

/-! ## `process_message` (supervisor.py 188-377) -/

/-- Step 1 of every turn: append the incoming message as a user turn with
the `has_file` metadata flag (supervisor.py 191-197). -/
def appendUserTurn (st : SupervisorState) (message : String)
    (file : Option String) : SupervisorState :=
  { st with messages := st.messages ++
      [⟨message, "text", "user", [("has_file", MetaVal.boolV file.isSome)]⟩] }

/-- In-place `metadata.update` on the most recently appended turn
(supervisor.py 231-235). -/
def updateLastMeta (ms : List Message) (kvs : List (String × MetaVal)) :
    List Message :=
  match ms.reverse with
  | [] => []
  | m :: rest => (({ m with metadata := dictUpdate m.metadata kvs }) :: rest).reverse

/-- Append the handler response as an assistant turn tagged with the
route (supervisor.py 357-362) and return the response. -/
def appendAssistant (st : SupervisorState) (route : String) (r : Response) :
    SupervisorState × Response :=
  ({ st with messages := st.messages ++
      [⟨r.response, "text", "assistant", [("agent", MetaVal.strV route)]⟩] },
   r)

/-- Post-compose a handler result with the assistant-turn append. -/
def withAppend (p : SupervisorState × Response) (route : String) :
    SupervisorState × Response :=
  appendAssistant p.1 route p.2

/-- The inner routing block of `process_message` (supervisor.py 237-364).
`fileInfo` carries the successful document-extractor output (content,
type, name) when a file accompanied the message.  The file branches
return the handler result directly without appending an assistant turn;
the non-file branches append one.  Note the file branches compare the
route against the bare labels `assignment` / `page` / `quiz`, not the
`canvas_*` labels the router produces, and default to the announcement
handler. -/
def routeDispatch (cc : Bool) (env : Env) (message : String)
    (fileInfo : Option (String × String × String)) (st : SupervisorState) :
    SupervisorState × Response :=
  if env.route == "pdf_listing" then
    appendAssistant st env.route ⟨env.pdfResponse, "pdf_listing"⟩
  else if env.route == "rag_query" then
    appendAssistant st env.route ⟨env.ragResponse, "rag_query"⟩
  else
    match fileInfo with
    | some (fcontent, ftype, fname) =>
      if env.route == "assignment" then
        handleAssignmentRequest cc env message
          (ContentArg.fileDict "" fcontent fname ftype) st
      else if env.route == "page" then
        handlePageRequest cc env message
          (ContentArg.fileDict "" fcontent fname ftype) st
      else if env.route == "quiz" then
        handleQuizRequest cc env message st
      else
        handlePostRequest cc env message
          (ContentArg.fileDict "File uploaded" fcontent fname ftype) st
    | none =>
      if env.route == "canvas_quiz" then
        withAppend (handleQuizRequest cc env message st) env.route
      else if env.route == "canvas_post" then
        withAppend (handlePostRequest cc env message
          (ContentArg.text "") st) env.route
      else if env.route == "canvas_list" then
        appendAssistant st env.route ⟨env.listResponse, "canvas_list"⟩
      else if env.route == "canvas_assignment" then
        withAppend (handleAssignmentRequest cc env message
          (ContentArg.text "") st) env.route
      else if env.route == "canvas_page" then
        withAppend (handlePageRequest cc env message
          (ContentArg.text "") st) env.route
      else if env.route == "web_search" then
        appendAssistant st env.route ⟨env.webResponse, "web_search"⟩
      else
        appendAssistant st env.route ⟨env.generalResponse, "general"⟩

/-- File processing and routing: everything after the confirmation and
cancellation checks (supervisor.py 216-364).  A failed extraction aborts
the turn with the `document_handler` error response; a successful one
updates the metadata of the just-appended user turn before routing. -/
def afterConfirm (cc : Bool) (env : Env) (message : String)
    (file : Option String) (st : SupervisorState) :
    SupervisorState × Response :=
  match file with
  | some _ =>
    match env.fileOutcome with
    | .err e =>
      (st, ⟨"Error processing file: " ++ e, "document_handler"⟩)
    | .ok fcontent ftype fname =>
      routeDispatch cc env message (some (fcontent, ftype, fname))
        { st with messages := (updateLastMeta st.messages
            [("file_content", MetaVal.strV fcontent),
             ("file_type", MetaVal.strV ftype),
             ("filename", MetaVal.strV fname)]) }
  | none => routeDispatch cc env message none st

/-- `CanvasGPTSupervisor.process_message` (supervisor.py 188-377).
The user turn is appended first; then `message.lower()` (no trimming) is
compared against the confirmation vocabulary, dispatching to the first
staged slot in the order quiz, announcement, assignment, page and
falling through when none is staged; `elif` the cancellation vocabulary
always short-circuits; only then is an uploaded file processed and the
message routed.  The outer `except` of the source is unreachable here
because every capability outcome is supplied as data in `env`. -/
def process_message (cc : Bool) (env : Env) (message : String)
    (file : Option String) (st0 : SupervisorState) :
    SupervisorState × Response :=
  if confirmList.contains (lowerStr message) then
    if st0.pending_quiz.isSome then
      handleQuizConfirmation cc env (appendUserTurn st0 message file)
    else if st0.pending_announcement.isSome then
      handleAnnouncementConfirmation cc env (appendUserTurn st0 message file)
    else if st0.pending_assignment.isSome then
      handleAssignmentConfirmation cc env (appendUserTurn st0 message file)
    else if st0.pending_page.isSome then
      handlePageConfirmation cc env (appendUserTurn st0 message file)
    else afterConfirm cc env message file (appendUserTurn st0 message file)
  else if cancelList.contains (lowerStr message) then
    handleCancellation (appendUserTurn st0 message file)
  else afterConfirm cc env message file (appendUserTurn st0 message file)

/-- The input of one conversation turn: message text, optional uploaded
filename, and the capability oracle for that turn. -/
structure TurnInput where
  message : String
  file : Option String
  env : Env
deriving Repr, DecidableEq

/-- Process a sequence of messages, threading the supervisor state. -/
def runMessages (cc : Bool) (st : SupervisorState) :
    List TurnInput → SupervisorState
  | [] => st
  | t :: ts => runMessages cc (process_message cc t.env t.message t.file st).1 ts

/-- One entry of `get_conversation_history`. -/
structure HistoryEntry where
  role : String
  content : String
  metadata : List (String × MetaVal)
deriving Repr, DecidableEq

/-- `CanvasGPTSupervisor.get_conversation_history` (supervisor.py
913-922). -/
def get_conversation_history (st : SupervisorState) : List HistoryEntry :=
  st.messages.map (fun m => ⟨m.role, m.content, m.metadata⟩)

/-! ## The Canvas assignment API payload (assignment.py 266-311) -/

/-- A JSON-ish payload value. -/
inductive PayloadVal where
  | s (v : String)
  | n (v : Nat)
  | b (v : Bool)
  | l (v : List String)
deriving Repr, DecidableEq

/-- The inner `assignment` payload built by
`AssignmentAgent.create_assignment`.  The `due_date` parameter of the
Python method is accepted but never written into the payload. -/
def create_assignment_payload (name description : String) (points : Nat)
    (due_date : Option String) (submission_types : Option (List String)) :
    List (String × PayloadVal) :=
  [("name", PayloadVal.s name),
   ("description", PayloadVal.s description),
   ("points_possible", PayloadVal.n points),
   ("submission_types", PayloadVal.l (submission_types.getD
      ["online_text_entry"])),
   ("published", PayloadVal.b true)]

/-! ## Derived notions used by the stated properties -/

/-- The four pending-action kinds. -/
inductive Kind where
  | quiz
  | announcement
  | assignment
  | page
deriving Repr, DecidableEq

/-- Is the slot of the given kind occupied? -/
def slotBusy (st : SupervisorState) (k : Kind) : Bool :=
  match k with
  | .quiz => st.pending_quiz.isSome
  | .announcement => st.pending_announcement.isSome
  | .assignment => st.pending_assignment.isSome
  | .page => st.pending_page.isSome

/-- The kind a confirmation or cancellation would act on: the first
occupied slot in the order quiz, announcement, assignment, page. -/
def selectPending (st : SupervisorState) : Option Kind :=
  if st.pending_quiz.isSome then some .quiz
  else if st.pending_announcement.isSome then some .announcement
  else if st.pending_assignment.isSome then some .assignment
  else if st.pending_page.isSome then some .page
  else none

/-- Is any pending slot occupied? -/
def somePendingB (st : SupervisorState) : Bool :=
  st.pending_quiz.isSome || st.pending_announcement.isSome ||
    st.pending_assignment.isSome || st.pending_page.isSome

/-- Exactly the slot of kind `k` is occupied. -/
def onlyStaged (st : SupervisorState) (k : Kind) : Bool :=
  match k with
  | .quiz => st.pending_quiz.isSome && !st.pending_announcement.isSome &&
      !st.pending_assignment.isSome && !st.pending_page.isSome
  | .announcement => !st.pending_quiz.isSome &&
      st.pending_announcement.isSome && !st.pending_assignment.isSome &&
      !st.pending_page.isSome
  | .assignment => !st.pending_quiz.isSome &&
      !st.pending_announcement.isSome && st.pending_assignment.isSome &&
      !st.pending_page.isSome
  | .page => !st.pending_quiz.isSome && !st.pending_announcement.isSome &&
      !st.pending_assignment.isSome && st.pending_page.isSome

/-- The confirmation handler that kind `k` dispatches to. -/
def confirmHandlerFor (k : Kind) (cc : Bool) (env : Env)
    (st : SupervisorState) : SupervisorState × Response :=
  match k with
  | .quiz => handleQuizConfirmation cc env st
  | .announcement => handleAnnouncementConfirmation cc env st
  | .assignment => handleAssignmentConfirmation cc env st
  | .page => handlePageConfirmation cc env st

/-- Does the oracle describe a confirmation execution that reaches the
slot-clearing statement for kind `k`: no raised exception, and for
assignments a successful course lookup? -/
def execNormalFor (env : Env) (k : Kind) : Bool :=
  match k with
  | .assignment =>
    (match env.lookup with | .found _ => true | _ => false) &&
      (match env.exec with | .raised _ => false | _ => true)
  | _ => match env.exec with | .raised _ => false | _ => true

/-- How many of the four pending slots differ between two states. -/
def changedSlots (s t : SupervisorState) : Nat :=
  (if s.pending_quiz = t.pending_quiz then 0 else 1) +
  (if s.pending_announcement = t.pending_announcement then 0 else 1) +
  (if s.pending_assignment = t.pending_assignment then 0 else 1) +
  (if s.pending_page = t.pending_page then 0 else 1)

/-- All slots other than the one of kind `k` agree between `s` and `t`. -/
def pendingEqExceptB (s t : SupervisorState) (k : Kind) : Bool :=
  (k == .quiz || s.pending_quiz == t.pending_quiz) &&
  (k == .announcement || s.pending_announcement == t.pending_announcement) &&
  (k == .assignment || s.pending_assignment == t.pending_assignment) &&
  (k == .page || s.pending_page == t.pending_page)

/-- A fixed oracle used by the concrete scenarios below: routing falls to
the general branch, content cleaning returns `CLEAN`, execution
succeeds, the course lookup finds course `42`, and file extraction
fails with `E` (individual scenarios override fields as needed). -/
def envBase : Env :=
  ⟨"general", "CLEAN", none, FileOutcome.err "E", ExecOutcome.success, false,
   CourseLookup.found "42", true, "W", "WE", "PDF", "RAG", "WEB", "GEN", "LIST"⟩

/-! ## Frame lemmas -/

theorem appendUserTurn_pending_quiz (st : SupervisorState) (m : String)
    (f : Option String) : (appendUserTurn st m f).pending_quiz = st.pending_quiz := rfl

theorem appendUserTurn_pending_announcement (st : SupervisorState) (m : String)
    (f : Option String) :
    (appendUserTurn st m f).pending_announcement = st.pending_announcement := rfl

theorem appendUserTurn_pending_assignment (st : SupervisorState) (m : String)
    (f : Option String) :
    (appendUserTurn st m f).pending_assignment = st.pending_assignment := rfl

theorem appendUserTurn_pending_page (st : SupervisorState) (m : String)
    (f : Option String) : (appendUserTurn st m f).pending_page = st.pending_page := rfl

theorem changedSlots_le_one_quiz {s t : SupervisorState}
    (h1 : t.pending_announcement = s.pending_announcement)
    (h2 : t.pending_assignment = s.pending_assignment)
    (h3 : t.pending_page = s.pending_page) :
    changedSlots s t ≤ 1 := by
  unfold changedSlots
  rw [h1, h2, h3]
  simp
  split <;> simp

theorem changedSlots_le_one_announcement {s t : SupervisorState}
    (h1 : t.pending_quiz = s.pending_quiz)
    (h2 : t.pending_assignment = s.pending_assignment)
    (h3 : t.pending_page = s.pending_page) :
    changedSlots s t ≤ 1 := by
  unfold changedSlots
  rw [h1, h2, h3]
  simp
  split <;> simp

theorem changedSlots_le_one_assignment {s t : SupervisorState}
    (h1 : t.pending_quiz = s.pending_quiz)
    (h2 : t.pending_announcement = s.pending_announcement)
    (h3 : t.pending_page = s.pending_page) :
    changedSlots s t ≤ 1 := by
  unfold changedSlots
  rw [h1, h2, h3]
  simp
  split <;> simp

theorem changedSlots_le_one_page {s t : SupervisorState}
    (h1 : t.pending_quiz = s.pending_quiz)
    (h2 : t.pending_announcement = s.pending_announcement)
    (h3 : t.pending_assignment = s.pending_assignment) :
    changedSlots s t ≤ 1 := by
  unfold changedSlots
  rw [h1, h2, h3]
  simp
  split <;> simp

theorem quizConf_frame (cc : Bool) (env : Env) (st : SupervisorState) :
    (handleQuizConfirmation cc env st).1.pending_announcement =
      st.pending_announcement ∧
    (handleQuizConfirmation cc env st).1.pending_assignment =
      st.pending_assignment ∧
    (handleQuizConfirmation cc env st).1.pending_page = st.pending_page ∧
    (handleQuizConfirmation cc env st).1.messages = st.messages := by
  unfold handleQuizConfirmation
  repeat' split
  all_goals simp

theorem annConf_frame (cc : Bool) (env : Env) (st : SupervisorState) :
    (handleAnnouncementConfirmation cc env st).1.pending_quiz =
      st.pending_quiz ∧
    (handleAnnouncementConfirmation cc env st).1.pending_assignment =
      st.pending_assignment ∧
    (handleAnnouncementConfirmation cc env st).1.pending_page =
      st.pending_page ∧
    (handleAnnouncementConfirmation cc env st).1.messages = st.messages := by
  unfold handleAnnouncementConfirmation
  repeat' split
  all_goals simp

theorem asgmtConf_frame (cc : Bool) (env : Env) (st : SupervisorState) :
    (handleAssignmentConfirmation cc env st).1.pending_quiz =
      st.pending_quiz ∧
    (handleAssignmentConfirmation cc env st).1.pending_announcement =
      st.pending_announcement ∧
    (handleAssignmentConfirmation cc env st).1.pending_page =
      st.pending_page ∧
    (handleAssignmentConfirmation cc env st).1.messages = st.messages := by
  unfold handleAssignmentConfirmation
  repeat' split
  all_goals simp

theorem pageConf_frame (cc : Bool) (env : Env) (st : SupervisorState) :
    (handlePageConfirmation cc env st).1.pending_quiz = st.pending_quiz ∧
    (handlePageConfirmation cc env st).1.pending_announcement =
      st.pending_announcement ∧
    (handlePageConfirmation cc env st).1.pending_assignment =
      st.pending_assignment ∧
    (handlePageConfirmation cc env st).1.messages = st.messages := by
  unfold handlePageConfirmation
  repeat' split
  all_goals simp

theorem quizReq_frame (cc : Bool) (env : Env) (m : String)
    (st : SupervisorState) :
    (handleQuizRequest cc env m st).1.pending_announcement =
      st.pending_announcement ∧
    (handleQuizRequest cc env m st).1.pending_assignment =
      st.pending_assignment ∧
    (handleQuizRequest cc env m st).1.pending_page = st.pending_page ∧
    (handleQuizRequest cc env m st).1.messages = st.messages := by
  unfold handleQuizRequest
  repeat' split
  all_goals simp

theorem postReq_frame (cc : Bool) (env : Env) (m : String) (arg : ContentArg)
    (st : SupervisorState) :
    (handlePostRequest cc env m arg st).1.pending_quiz = st.pending_quiz ∧
    (handlePostRequest cc env m arg st).1.pending_assignment =
      st.pending_assignment ∧
    (handlePostRequest cc env m arg st).1.pending_page = st.pending_page ∧
    (handlePostRequest cc env m arg st).1.messages = st.messages := by
  unfold handlePostRequest
  repeat' split
  all_goals simp

theorem asgmtReq_frame (cc : Bool) (env : Env) (m : String) (arg : ContentArg)
    (st : SupervisorState) :
    (handleAssignmentRequest cc env m arg st).1.pending_quiz =
      st.pending_quiz ∧
    (handleAssignmentRequest cc env m arg st).1.pending_announcement =
      st.pending_announcement ∧
    (handleAssignmentRequest cc env m arg st).1.pending_page =
      st.pending_page ∧
    (handleAssignmentRequest cc env m arg st).1.messages = st.messages := by
  unfold handleAssignmentRequest
  repeat' split
  all_goals simp

theorem pageReq_frame (cc : Bool) (env : Env) (m : String) (arg : ContentArg)
    (st : SupervisorState) :
    (handlePageRequest cc env m arg st).1.pending_quiz = st.pending_quiz ∧
    (handlePageRequest cc env m arg st).1.pending_announcement =
      st.pending_announcement ∧
    (handlePageRequest cc env m arg st).1.pending_assignment =
      st.pending_assignment ∧
    (handlePageRequest cc env m arg st).1.messages = st.messages := by
  unfold handlePageRequest
  repeat' split
  all_goals simp

theorem cancel_frame (st : SupervisorState) :
    (handleCancellation st).1.messages = st.messages := by
  unfold handleCancellation
  repeat' split
  all_goals simp

theorem slots_quizConf (cc : Bool) (env : Env) (st : SupervisorState) :
    changedSlots st (handleQuizConfirmation cc env st).1 ≤ 1 := by
  obtain ⟨h1, h2, h3, _⟩ := quizConf_frame cc env st
  exact changedSlots_le_one_quiz h1 h2 h3

theorem slots_annConf (cc : Bool) (env : Env) (st : SupervisorState) :
    changedSlots st (handleAnnouncementConfirmation cc env st).1 ≤ 1 := by
  obtain ⟨h1, h2, h3, _⟩ := annConf_frame cc env st
  exact changedSlots_le_one_announcement h1 h2 h3

theorem slots_asgmtConf (cc : Bool) (env : Env) (st : SupervisorState) :
    changedSlots st (handleAssignmentConfirmation cc env st).1 ≤ 1 := by
  obtain ⟨h1, h2, h3, _⟩ := asgmtConf_frame cc env st
  exact changedSlots_le_one_assignment h1 h2 h3

theorem slots_pageConf (cc : Bool) (env : Env) (st : SupervisorState) :
    changedSlots st (handlePageConfirmation cc env st).1 ≤ 1 := by
  obtain ⟨h1, h2, h3, _⟩ := pageConf_frame cc env st
  exact changedSlots_le_one_page h1 h2 h3

theorem slots_cancel (st : SupervisorState) :
    changedSlots st (handleCancellation st).1 ≤ 1 := by
  unfold handleCancellation
  repeat' split
  all_goals simp_all [changedSlots]

theorem slots_quizReq (cc : Bool) (env : Env) (m : String)
    (st : SupervisorState) :
    changedSlots st (handleQuizRequest cc env m st).1 ≤ 1 := by
  obtain ⟨h1, h2, h3, _⟩ := quizReq_frame cc env m st
  exact changedSlots_le_one_quiz h1 h2 h3

theorem slots_postReq (cc : Bool) (env : Env) (m : String) (arg : ContentArg)
    (st : SupervisorState) :
    changedSlots st (handlePostRequest cc env m arg st).1 ≤ 1 := by
  obtain ⟨h1, h2, h3, _⟩ := postReq_frame cc env m arg st
  exact changedSlots_le_one_announcement h1 h2 h3

theorem slots_asgmtReq (cc : Bool) (env : Env) (m : String) (arg : ContentArg)
    (st : SupervisorState) :
    changedSlots st (handleAssignmentRequest cc env m arg st).1 ≤ 1 := by
  obtain ⟨h1, h2, h3, _⟩ := asgmtReq_frame cc env m arg st
  exact changedSlots_le_one_assignment h1 h2 h3

theorem slots_pageReq (cc : Bool) (env : Env) (m : String) (arg : ContentArg)
    (st : SupervisorState) :
    changedSlots st (handlePageRequest cc env m arg st).1 ≤ 1 := by
  obtain ⟨h1, h2, h3, _⟩ := pageReq_frame cc env m arg st
  exact changedSlots_le_one_page h1 h2 h3

theorem slotsW_quizReq (cc : Bool) (env : Env) (m : String)
    (st : SupervisorState) (route : String) :
    changedSlots st (withAppend (handleQuizRequest cc env m st) route).1 ≤ 1 := by
  obtain ⟨h1, h2, h3, _⟩ := quizReq_frame cc env m st
  exact changedSlots_le_one_quiz h1 h2 h3

theorem slotsW_postReq (cc : Bool) (env : Env) (m : String) (arg : ContentArg)
    (st : SupervisorState) (route : String) :
    changedSlots st (withAppend (handlePostRequest cc env m arg st) route).1 ≤ 1 := by
  obtain ⟨h1, h2, h3, _⟩ := postReq_frame cc env m arg st
  exact changedSlots_le_one_announcement h1 h2 h3

theorem slotsW_asgmtReq (cc : Bool) (env : Env) (m : String) (arg : ContentArg)
    (st : SupervisorState) (route : String) :
    changedSlots st (withAppend (handleAssignmentRequest cc env m arg st) route).1 ≤ 1 := by
  obtain ⟨h1, h2, h3, _⟩ := asgmtReq_frame cc env m arg st
  exact changedSlots_le_one_assignment h1 h2 h3

theorem slotsW_pageReq (cc : Bool) (env : Env) (m : String) (arg : ContentArg)
    (st : SupervisorState) (route : String) :
    changedSlots st (withAppend (handlePageRequest cc env m arg st) route).1 ≤ 1 := by
  obtain ⟨h1, h2, h3, _⟩ := pageReq_frame cc env m arg st
  exact changedSlots_le_one_page h1 h2 h3

theorem slots_appendAssistant (st : SupervisorState) (route : String)
    (r : Response) : changedSlots st (appendAssistant st route r).1 = 0 := by
  simp [changedSlots, appendAssistant]

theorem slots_appendAssistant_le (st : SupervisorState) (route : String)
    (r : Response) : changedSlots st (appendAssistant st route r).1 ≤ 1 := by
  simp [changedSlots, appendAssistant]

section

attribute [local irreducible] handleQuizRequest handlePostRequest
  handleAssignmentRequest handlePageRequest appendAssistant withAppend

set_option maxHeartbeats 1000000 in
theorem routeDispatch_slots (cc : Bool) (env : Env) (m : String)
    (fi : Option (String × String × String)) (st : SupervisorState) :
    changedSlots st (routeDispatch cc env m fi st).1 ≤ 1 := by
  unfold routeDispatch
  repeat' split
  all_goals
    first
    | apply slots_appendAssistant_le
    | apply slotsW_quizReq
    | apply slots_quizReq
    | apply slotsW_postReq
    | apply slots_postReq
    | apply slotsW_asgmtReq
    | apply slots_asgmtReq
    | apply slotsW_pageReq
    | apply slots_pageReq

end

theorem afterConfirm_slots (cc : Bool) (env : Env) (m : String)
    (f : Option String) (st : SupervisorState) :
    changedSlots st (afterConfirm cc env m f st).1 ≤ 1 := by
  cases f with
  | none => exact routeDispatch_slots cc env m none st
  | some fn =>
    cases hfo : env.fileOutcome with
    | err e =>
      simp only [afterConfirm, hfo]
      simp [changedSlots]
    | ok a b c =>
      simp only [afterConfirm, hfo]
      exact routeDispatch_slots cc env m (some (a, b, c))
        { st with messages := (updateLastMeta st.messages
            [("file_content", MetaVal.strV a),
             ("file_type", MetaVal.strV b),
             ("filename", MetaVal.strV c)]) }

theorem updateLastMeta_append (a : List Message) (b : Message)
    (kvs : List (String × MetaVal)) :
    updateLastMeta (a ++ [b]) kvs =
      a ++ [{ b with metadata := dictUpdate b.metadata kvs }] := by
  unfold updateLastMeta
  simp

theorem messages_appendAssistant (st : SupervisorState) (route : String)
    (r : Response) :
    (appendAssistant st route r).1.messages = st.messages ++
      [⟨r.response, "text", "assistant",
        [("agent", MetaVal.strV route)]⟩] := rfl

theorem messagesW (p : SupervisorState × Response) (route : String) :
    (withAppend p route).1.messages = p.1.messages ++
      [⟨p.2.response, "text", "assistant",
        [("agent", MetaVal.strV route)]⟩] := rfl

section

attribute [local irreducible] handleQuizRequest handlePostRequest
  handleAssignmentRequest handlePageRequest appendAssistant withAppend

set_option maxHeartbeats 1000000 in
theorem routeDispatch_messages (cc : Bool) (env : Env) (m : String)
    (fi : Option (String × String × String)) (st : SupervisorState) :
    ∃ tail, (routeDispatch cc env m fi st).1.messages = st.messages ++ tail ∧
      (tail = [] ∨ ∃ resp, tail =
        [⟨resp, "text", "assistant", [("agent", MetaVal.strV env.route)]⟩]) := by
  unfold routeDispatch
  repeat' split
  all_goals
    first
    | exact ⟨_, messages_appendAssistant _ _ _, Or.inr ⟨_, rfl⟩⟩
    | exact ⟨[⟨(handleQuizRequest cc env m st).2.response, "text", "assistant",
               [("agent", MetaVal.strV env.route)]⟩],
             by rw [messagesW, (quizReq_frame cc env m st).2.2.2],
             Or.inr ⟨_, rfl⟩⟩
    | exact ⟨[⟨(handlePostRequest cc env m (ContentArg.text "") st).2.response,
               "text", "assistant", [("agent", MetaVal.strV env.route)]⟩],
             by rw [messagesW,
               (postReq_frame cc env m (ContentArg.text "") st).2.2.2],
             Or.inr ⟨_, rfl⟩⟩
    | exact ⟨[⟨(handleAssignmentRequest cc env m (ContentArg.text "")
                  st).2.response,
               "text", "assistant", [("agent", MetaVal.strV env.route)]⟩],
             by rw [messagesW,
               (asgmtReq_frame cc env m (ContentArg.text "") st).2.2.2],
             Or.inr ⟨_, rfl⟩⟩
    | exact ⟨[⟨(handlePageRequest cc env m (ContentArg.text "") st).2.response,
               "text", "assistant", [("agent", MetaVal.strV env.route)]⟩],
             by rw [messagesW,
               (pageReq_frame cc env m (ContentArg.text "") st).2.2.2],
             Or.inr ⟨_, rfl⟩⟩
    | exact ⟨[], by rw [(quizReq_frame _ _ _ _).2.2.2]; simp, Or.inl rfl⟩
    | exact ⟨[], by rw [(postReq_frame _ _ _ _ _).2.2.2]; simp, Or.inl rfl⟩
    | exact ⟨[], by rw [(asgmtReq_frame _ _ _ _ _).2.2.2]; simp, Or.inl rfl⟩
    | exact ⟨[], by rw [(pageReq_frame _ _ _ _ _).2.2.2]; simp, Or.inl rfl⟩

end

theorem afterConfirm_user_shape (cc : Bool) (env : Env) (m : String)
    (f : Option String) (st : SupervisorState) :
    ∃ md tail,
      (afterConfirm cc env m f (appendUserTurn st m f)).1.messages =
        st.messages ++ (⟨m, "text", "user", md⟩ : Message) :: tail ∧
      (tail = [] ∨ ∃ resp, tail =
        [⟨resp, "text", "assistant", [("agent", MetaVal.strV env.route)]⟩]) := by
  cases f with
  | none =>
    obtain ⟨tail, h1, h2⟩ :=
      routeDispatch_messages cc env m none (appendUserTurn st m none)
    refine ⟨[("has_file", MetaVal.boolV false)], tail, ?_, h2⟩
    rw [show afterConfirm cc env m none (appendUserTurn st m none) =
        routeDispatch cc env m none (appendUserTurn st m none) from rfl, h1]
    simp [appendUserTurn]
  | some fn =>
    cases hfo : env.fileOutcome with
    | err e =>
      refine ⟨[("has_file", MetaVal.boolV true)], [], ?_, Or.inl rfl⟩
      simp only [afterConfirm, hfo]
      simp [appendUserTurn]
    | ok a b c =>
      obtain ⟨tail, h1, h2⟩ :=
        routeDispatch_messages cc env m (some (a, b, c))
          { appendUserTurn st m (some fn) with
            messages := (updateLastMeta (appendUserTurn st m (some fn)).messages
              [("file_content", MetaVal.strV a),
               ("file_type", MetaVal.strV b),
               ("filename", MetaVal.strV c)]) }
      refine ⟨dictUpdate [("has_file", MetaVal.boolV true)]
        [("file_content", MetaVal.strV a),
         ("file_type", MetaVal.strV b),
         ("filename", MetaVal.strV c)], tail, ?_, h2⟩
      simp only [afterConfirm, hfo]
      rw [h1]
      show (updateLastMeta ((appendUserTurn st m (some fn)).messages) _) ++ tail = _
      rw [show (appendUserTurn st m (some fn)).messages =
        st.messages ++ [⟨m, "text", "user",
          [("has_file", MetaVal.boolV true)]⟩] from rfl]
      rw [updateLastMeta_append]
      simp

theorem process_messages_shape (cc : Bool) (env : Env) (m : String)
    (f : Option String) (st : SupervisorState) :
    ∃ md tail,
      (process_message cc env m f st).1.messages =
        st.messages ++ (⟨m, "text", "user", md⟩ : Message) :: tail ∧
      (tail = [] ∨ ∃ resp, tail =
        [⟨resp, "text", "assistant", [("agent", MetaVal.strV env.route)]⟩]) := by
  have huser : (appendUserTurn st m f).messages =
      st.messages ++ [⟨m, "text", "user",
        [("has_file", MetaVal.boolV f.isSome)]⟩] := rfl
  unfold process_message
  repeat' split
  all_goals
    first
    | exact afterConfirm_user_shape cc env m f st
    | (refine ⟨[("has_file", MetaVal.boolV f.isSome)], [], ?_, Or.inl rfl⟩
       first
       | rw [(quizConf_frame cc env (appendUserTurn st m f)).2.2.2, huser]
       | rw [(annConf_frame cc env (appendUserTurn st m f)).2.2.2, huser]
       | rw [(asgmtConf_frame cc env (appendUserTurn st m f)).2.2.2, huser]
       | rw [(pageConf_frame cc env (appendUserTurn st m f)).2.2.2, huser]
       | rw [cancel_frame (appendUserTurn st m f), huser])

theorem cancel_not_confirm (s : String) (h : cancelList.contains s = true) :
    confirmList.contains s = false := by
  simp [cancelList] at h
  rcases h with h | h | h | h <;> subst h <;> decide

set_option maxHeartbeats 1000000 in
theorem confirm_dispatch (cc : Bool) (env : Env) (m : String)
    (f : Option String) (st : SupervisorState) (k : Kind)
    (hc : confirmList.contains (lowerStr m) = true)
    (hk : selectPending st = some k) :
    process_message cc env m f st =
      confirmHandlerFor k cc env (appendUserTurn st m f) := by
  by_cases h1 : st.pending_quiz.isSome <;>
    by_cases h2 : st.pending_announcement.isSome <;>
    by_cases h3 : st.pending_assignment.isSome <;>
    by_cases h4 : st.pending_page.isSome <;>
    simp_all [process_message, confirmHandlerFor, selectPending] <;>
    (subst hk; rfl)

theorem cancel_dispatch (cc : Bool) (env : Env) (m : String)
    (f : Option String) (st : SupervisorState)
    (hx : cancelList.contains (lowerStr m) = true) :
    process_message cc env m f st =
      handleCancellation (appendUserTurn st m f) := by
  have hc := cancel_not_confirm (lowerStr m) hx
  have hx2 : lowerStr m ∈ cancelList := by simpa using hx
  have hc2 : lowerStr m ∉ confirmList := by simpa using hc
  simp [process_message, hc2, hx2]

theorem somePending_select (st : SupervisorState)
    (h : somePendingB st = true) : ∃ k, selectPending st = some k := by
  by_cases h1 : st.pending_quiz.isSome <;>
    by_cases h2 : st.pending_announcement.isSome <;>
    by_cases h3 : st.pending_assignment.isSome <;>
    by_cases h4 : st.pending_page.isSome <;>
    simp_all [somePendingB, selectPending]

theorem onlyStaged_select (st : SupervisorState) (k : Kind)
    (h : onlyStaged st k = true) : selectPending st = some k := by
  cases k <;> simp_all [onlyStaged, selectPending]

theorem quizConf_clears (env : Env) (st : SupervisorState)
    (hn : execNormalFor env Kind.quiz = true) :
    (handleQuizConfirmation true env st).1.pending_quiz = none ∨
      st.pending_quiz = none := by
  unfold handleQuizConfirmation
  cases hq : st.pending_quiz <;> cases he : env.exec <;>
    simp_all [execNormalFor]

theorem annConf_clears (env : Env) (st : SupervisorState)
    (hn : execNormalFor env Kind.announcement = true) :
    (handleAnnouncementConfirmation true env st).1.pending_announcement =
        none ∨
      st.pending_announcement = none := by
  unfold handleAnnouncementConfirmation
  cases hq : st.pending_announcement <;> cases he : env.exec <;>
    simp_all [execNormalFor]

theorem asgmtConf_clears (env : Env) (st : SupervisorState)
    (hn : execNormalFor env Kind.assignment = true) :
    (handleAssignmentConfirmation true env st).1.pending_assignment = none ∨
      st.pending_assignment = none := by
  unfold handleAssignmentConfirmation
  cases hq : st.pending_assignment <;> cases hl : env.lookup <;>
    cases he : env.exec <;> simp_all [execNormalFor]

theorem pageConf_clears (env : Env) (st : SupervisorState)
    (hn : execNormalFor env Kind.page = true) :
    (handlePageConfirmation true env st).1.pending_page = none ∨
      st.pending_page = none := by
  unfold handlePageConfirmation
  cases hq : st.pending_page <;> cases he : env.exec <;>
    simp_all [execNormalFor]

theorem cancel_resolves (st : SupervisorState) (k : Kind)
    (hk : selectPending st = some k) :
    pendingEqExceptB st (handleCancellation st).1 k = true ∧
      slotBusy (handleCancellation st).1 k = false := by
  unfold handleCancellation
  cases hq : st.pending_quiz <;> cases ha : st.pending_announcement <;>
    cases hs : st.pending_assignment <;> cases hp : st.pending_page <;>
    simp_all [selectPending, pendingEqExceptB, slotBusy] <;>
    (subst hk) <;> simp [pendingEqExceptB, slotBusy, hq, ha, hs, hp]

theorem fileError_aborts (cc : Bool) (env : Env) (m : String)
    (fname : String) (st : SupervisorState) (e : String)
    (h1 : (confirmList.contains (lowerStr m) && somePendingB st) = false)
    (h2 : cancelList.contains (lowerStr m) = false)
    (h3 : env.fileOutcome = FileOutcome.err e) :
    process_message cc env m (some fname) st =
      (appendUserTurn st m (some fname),
       ⟨"Error processing file: " ++ e, "document_handler"⟩) := by
  by_cases hc : confirmList.contains (lowerStr m) = true
  · have hsp : somePendingB st = false := by
      cases hv : somePendingB st
      · rfl
      · rw [hc, hv] at h1; simp at h1
    have hq : st.pending_quiz.isSome = false := by
      cases hval : st.pending_quiz.isSome
      · rfl
      · simp [somePendingB, hval] at hsp
    have ha : st.pending_announcement.isSome = false := by
      cases hval : st.pending_announcement.isSome
      · rfl
      · simp [somePendingB, hval] at hsp
    have hs : st.pending_assignment.isSome = false := by
      cases hval : st.pending_assignment.isSome
      · rfl
      · simp [somePendingB, hval] at hsp
    have hp : st.pending_page.isSome = false := by
      cases hval : st.pending_page.isSome
      · rfl
      · simp [somePendingB, hval] at hsp
    have hc2 : lowerStr m ∈ confirmList := by simpa using hc
    simp [process_message, hc2, hq, ha, hs, hp, afterConfirm, h3]
  · have hc2 : lowerStr m ∉ confirmList := by simpa using hc
    have h22 : lowerStr m ∉ cancelList := by simpa using h2
    simp [process_message, hc2, h22, afterConfirm, h3]

theorem changedSlots_congr (s t u : SupervisorState)
    (h1 : s.pending_quiz = t.pending_quiz)
    (h2 : s.pending_announcement = t.pending_announcement)
    (h3 : s.pending_assignment = t.pending_assignment)
    (h4 : s.pending_page = t.pending_page) :
    changedSlots s u = changedSlots t u := by
  unfold changedSlots
  rw [h1, h2, h3, h4]

theorem select_busy (st : SupervisorState) (k : Kind)
    (hk : selectPending st = some k) : slotBusy st k = true := by
  by_cases h1 : st.pending_quiz.isSome <;>
    by_cases h2 : st.pending_announcement.isSome <;>
    by_cases h3 : st.pending_assignment.isSome <;>
    by_cases h4 : st.pending_page.isSome <;>
    simp_all [selectPending, slotBusy] <;> (subst hk; simp_all [slotBusy])

/-! ## C1: single-slot invariant -/

/-- C1 (counterexample): staging an assignment and then a quiz leaves BOTH
pending actions staged: the store has one independent slot per kind, so
the claimed global single-slot invariant fails after the second message. -/
theorem c1_single_slot_counterexample :
    ((runMessages true initialState
      [⟨"[CS101] create an assignment", none,
        { envBase with route := "canvas_assignment" }⟩,
       ⟨"[CS101] create a quiz", none,
        { envBase with route := "canvas_quiz" }⟩]).pending_assignment.isSome
      &&
     (runMessages true initialState
      [⟨"[CS101] create an assignment", none,
        { envBase with route := "canvas_assignment" }⟩,
       ⟨"[CS101] create a quiz", none,
        { envBase with route := "canvas_quiz" }⟩]).pending_quiz.isSome)
      = true := by
  decide

/-- C1 (amended): each processed message changes at most one of the four
pending-action slots; staging one kind never clears a different kind, so
up to four pending actions (one per kind) can coexist, and only the
per-kind slots are single-occupancy. -/
theorem c1_single_slot_amended (cc : Bool) (env : Env) (m : String)
    (f : Option String) (st : SupervisorState) :
    changedSlots st (process_message cc env m f st).1 ≤ 1 := by
  have hq := slots_quizConf cc env (appendUserTurn st m f)
  have ha := slots_annConf cc env (appendUserTurn st m f)
  have hs := slots_asgmtConf cc env (appendUserTurn st m f)
  have hp := slots_pageConf cc env (appendUserTurn st m f)
  have hx := slots_cancel (appendUserTurn st m f)
  have hf := afterConfirm_slots cc env m f (appendUserTurn st m f)
  rw [changedSlots_congr st (appendUserTurn st m f)
    (process_message cc env m f st).1 rfl rfl rfl rfl]
  unfold process_message
  repeat' split
  all_goals
    first
    | exact hq
    | exact ha
    | exact hs
    | exact hp
    | exact hx
    | exact hf

/-! ## C2: confirmation precedence -/

/-- C2 (counterexample): the supervisor compares `message.lower()` WITHOUT
trimming, so the message `" yes "` (whose trimmed lower-cased form is the
confirmation token `yes`) is NOT treated as a confirmation: with a quiz
staged it is routed to intent classification (general branch) and the
pending quiz survives. -/
theorem c2_confirmation_trim_counterexample :
    strip (lowerStr " yes ") = "yes" ∧
    confirmList.contains (strip (lowerStr " yes ")) = true ∧
    confirmList.contains (lowerStr " yes ") = false ∧
    (process_message true envBase " yes " none
      ⟨[], some ⟨"CS101", "Q", "Quiz"⟩, none, none, none⟩).1.pending_quiz =
      some ⟨"CS101", "Q", "Quiz"⟩ ∧
    (process_message true envBase " yes " none
      ⟨[], some ⟨"CS101", "Q", "Quiz"⟩, none, none, none⟩).2.agent =
      "general" := by
  exact ⟨by decide, by decide, by decide, by decide, by decide⟩

/-- C2 (amended): for a message whose UN-trimmed lower-cased form equals a
confirmation token, if a pending action of kind `k` is staged and no
higher-priority kind is staged (lower-priority kinds may coexist), then
`process_message` returns the result of the kind-`k` confirmation handler
(for every oracle, i.e. before and instead of intent classification and
of file processing), and when the execution oracle reaches the clearing
statement (no raised exception; for assignments also a successful course
lookup) the slot returns to Idle. -/
theorem c2_confirmation_precedence_amended (cc : Bool) (env : Env)
    (m : String) (f : Option String) (st : SupervisorState) (k : Kind)
    (hc : confirmList.contains (lowerStr m) = true)
    (hk : selectPending st = some k) :
    process_message cc env m f st =
      confirmHandlerFor k cc env (appendUserTurn st m f) ∧
    (execNormalFor env k = true →
      slotBusy (process_message true env m f st).1 k = false) := by
  constructor
  · exact confirm_dispatch cc env m f st k hc hk
  · intro hn
    rw [confirm_dispatch true env m f st k hc hk]
    have hb := select_busy st k hk
    cases k with
    | quiz =>
      rcases quizConf_clears env (appendUserTurn st m f) hn with h | h
      · simp [confirmHandlerFor, slotBusy, h]
      · rw [appendUserTurn_pending_quiz] at h
        simp [slotBusy, h] at hb
    | announcement =>
      rcases annConf_clears env (appendUserTurn st m f) hn with h | h
      · simp [confirmHandlerFor, slotBusy, h]
      · rw [appendUserTurn_pending_announcement] at h
        simp [slotBusy, h] at hb
    | assignment =>
      rcases asgmtConf_clears env (appendUserTurn st m f) hn with h | h
      · simp [confirmHandlerFor, slotBusy, h]
      · rw [appendUserTurn_pending_assignment] at h
        simp [slotBusy, h] at hb
    | page =>
      rcases pageConf_clears env (appendUserTurn st m f) hn with h | h
      · simp [confirmHandlerFor, slotBusy, h]
      · rw [appendUserTurn_pending_page] at h
        simp [slotBusy, h] at hb

/-- C2 (witness): with a quiz staged as the highest-priority kind while a
page is also staged, and a successful execution oracle, the literal
message `yes` resolves the quiz and clears its slot. -/
theorem c2_confirmation_precedence_witness :
    process_message true envBase "yes" none
      ⟨[], some ⟨"CS101", "Q", "Quiz"⟩, none, none,
        some ⟨"CS101", "P", none, none, none⟩⟩ =
      confirmHandlerFor Kind.quiz true envBase
        (appendUserTurn
          ⟨[], some ⟨"CS101", "Q", "Quiz"⟩, none, none,
            some ⟨"CS101", "P", none, none, none⟩⟩ "yes" none) ∧
    slotBusy (process_message true envBase "yes" none
      ⟨[], some ⟨"CS101", "Q", "Quiz"⟩, none, none,
        some ⟨"CS101", "P", none, none, none⟩⟩).1 Kind.quiz = false := by
  have h := c2_confirmation_precedence_amended true envBase "yes" none
    ⟨[], some ⟨"CS101", "Q", "Quiz"⟩, none, none,
      some ⟨"CS101", "P", none, none, none⟩⟩ Kind.quiz
    (by decide) (by decide)
  exact ⟨h.1, h.2 (by decide)⟩

/-! ## C3: clearing on confirmation, success and failure paths -/

/-- C3 (counterexample): when the Canvas call raises during a quiz
confirmation, the handler catches the exception but does NOT clear the
slot: the quiz is still staged after the confirmation returns, refuting
the claim that every failure path clears the pending action. -/
theorem c3_clear_on_failure_counterexample :
    (process_message true { envBase with exec := ExecOutcome.raised "boom" }
      "yes" none
      ⟨[], some ⟨"CS101", "Q", "Quiz"⟩, none, none, none⟩).1.pending_quiz =
      some ⟨"CS101", "Q", "Quiz"⟩ ∧
    (process_message true { envBase with exec := ExecOutcome.raised "boom" }
      "yes" none
      ⟨[], some ⟨"CS101", "Q", "Quiz"⟩, none, none, none⟩).2 =
      ⟨"Error creating quiz: boom", "canvas_quiz"⟩ := by
  exact ⟨by decide, by decide⟩

/-- C3 (amended): a confirmation clears the pending slot exactly on the
success path and on the backend-reported-failure path; when the handler
catches a raised exception the slot keeps its staged action, and an
assignment confirmation whose course lookup fails (or raises) also keeps
the assignment staged. -/
theorem c3_clear_on_confirmation_amended
    (env1 : Env) (st1 : SupervisorState) (q : PendingQuiz)
    (h1 : st1.pending_quiz = some q)
    (env2 : Env) (st2 : SupervisorState) (a : PendingAnnouncement)
    (h2 : st2.pending_announcement = some a)
    (env3 : Env) (st3 : SupervisorState) (b : PendingAssignment)
    (h3 : st3.pending_assignment = some b)
    (env4 : Env) (st4 : SupervisorState) (p : PendingPage)
    (h4 : st4.pending_page = some p) :
    (handleQuizConfirmation true env1 st1).1.pending_quiz =
      (match env1.exec with
       | ExecOutcome.raised _ => some q
       | _ => none) ∧
    (handleAnnouncementConfirmation true env2 st2).1.pending_announcement =
      (match env2.exec with
       | ExecOutcome.raised _ => some a
       | _ => none) ∧
    (handleAssignmentConfirmation true env3 st3).1.pending_assignment =
      (match env3.lookup with
       | CourseLookup.found _ =>
         (match env3.exec with
          | ExecOutcome.raised _ => some b
          | _ => none)
       | _ => some b) ∧
    (handlePageConfirmation true env4 st4).1.pending_page =
      (match env4.exec with
       | ExecOutcome.raised _ => some p
       | _ => none) := by
  refine ⟨?_, ?_, ?_, ?_⟩
  · unfold handleQuizConfirmation
    rw [h1]
    cases env1.exec <;> simp [h1]
  · unfold handleAnnouncementConfirmation
    rw [h2]
    cases env2.exec <;> simp [h2]
  · unfold handleAssignmentConfirmation
    rw [h3]
    cases env3.lookup <;> cases env3.exec <;> simp [h3]
  · unfold handlePageConfirmation
    rw [h4]
    cases env4.exec <;> simp [h4]

/-- C3 (witness): on the success oracle every confirmation handler clears
its slot. -/
theorem c3_clear_on_confirmation_witness :
    (handleQuizConfirmation true envBase
      ⟨[], some ⟨"CS101", "Q", "Quiz"⟩, none, none, none⟩).1.pending_quiz =
      none ∧
    (handleAssignmentConfirmation true envBase
      ⟨[], none, none, some ⟨"C", "A", none, 100, [], none, none⟩,
        none⟩).1.pending_assignment = none := by
  have h := c3_clear_on_confirmation_amended
    envBase ⟨[], some ⟨"CS101", "Q", "Quiz"⟩, none, none, none⟩
    ⟨"CS101", "Q", "Quiz"⟩ rfl
    envBase ⟨[], none, some ⟨"C", "A", "T", none, none⟩, none, none⟩
    ⟨"C", "A", "T", none, none⟩ rfl
    envBase ⟨[], none, none, some ⟨"C", "A", none, 100, [], none, none⟩, none⟩
    ⟨"C", "A", none, 100, [], none, none⟩ rfl
    envBase ⟨[], none, none, none, some ⟨"C", "A", none, none, none⟩⟩
    ⟨"C", "A", none, none, none⟩ rfl
  exact ⟨h.1, h.2.2.1⟩

/-! ## C4: per-message step order for uploaded files -/

/-- C4 (counterexample): with a quiz staged, the message `yes` carrying an
uploaded file resolves the confirmation BEFORE the DocumentExtractor is
consulted: even though the file oracle reports an extraction failure, the
turn is NOT aborted with a `document_handler` error; the quiz is executed
and its slot cleared. -/
theorem c4_file_order_counterexample :
    (process_message true
      { envBase with fileOutcome := FileOutcome.err "bad parse" }
      "yes" (some "notes.pdf")
      ⟨[], some ⟨"CS101", "Q", "Quiz"⟩, none, none, none⟩).2 =
      ⟨"Successfully created quiz in CS101!", "canvas_quiz"⟩ ∧
    (process_message true
      { envBase with fileOutcome := FileOutcome.err "bad parse" }
      "yes" (some "notes.pdf")
      ⟨[], some ⟨"CS101", "Q", "Quiz"⟩, none, none, none⟩).1.pending_quiz =
      none := by
  exact ⟨by decide, by decide⟩

/-- C4 (amended): the confirmation/cancellation vocabulary is evaluated
BEFORE the DocumentExtractor; for a message that does not short-circuit
on that vocabulary, a file-extraction failure aborts the turn with the
`document_handler` error response, leaving every pending slot unchanged
(only the user turn has been appended). -/
theorem c4_file_step_order_amended (cc : Bool) (env : Env) (m : String)
    (fname : String) (st : SupervisorState) (e : String)
    (h1 : (confirmList.contains (lowerStr m) && somePendingB st) = false)
    (h2 : cancelList.contains (lowerStr m) = false)
    (h3 : env.fileOutcome = FileOutcome.err e) :
    process_message cc env m (some fname) st =
      (appendUserTurn st m (some fname),
       ⟨"Error processing file: " ++ e, "document_handler"⟩) ∧
    (process_message cc env m (some fname) st).1.pending_quiz =
      st.pending_quiz ∧
    (process_message cc env m (some fname) st).1.pending_announcement =
      st.pending_announcement ∧
    (process_message cc env m (some fname) st).1.pending_assignment =
      st.pending_assignment ∧
    (process_message cc env m (some fname) st).1.pending_page =
      st.pending_page := by
  have h := fileError_aborts cc env m fname st e h1 h2 h3
  refine ⟨h, ?_, ?_, ?_, ?_⟩ <;> simp [h, appendUserTurn]

/-- C4 (witness): a plain message with a failing file extraction aborts
with the `document_handler` error. -/
theorem c4_file_step_order_witness :
    process_message true envBase "hello there" (some "a.pdf") initialState =
      (appendUserTurn initialState "hello there" (some "a.pdf"),
       ⟨"Error processing file: " ++ "E", "document_handler"⟩) :=
  (c4_file_step_order_amended true envBase "hello there" "a.pdf"
    initialState "E" (by decide) (by decide) rfl).1

/-! ## C5: append-only, never-mutated conversation turns -/

/-- C5 (counterexample): a successfully processed file mutates the
metadata of the user turn that was already appended at the start of the
same call: the turn in the final log differs from the turn as appended. -/
theorem c5_turn_mutation_counterexample :
    (process_message true
      { envBase with
        route := "pdf_listing"
        fileOutcome := FileOutcome.ok "CONTENT" "pdf" "a.pdf" }
      "show pdfs" (some "a.pdf") initialState).1.messages.head? ≠
      (appendUserTurn initialState "show pdfs" (some "a.pdf")).messages.head? ∧
    (appendUserTurn initialState "show pdfs" (some "a.pdf")).messages.head? =
      some ⟨"show pdfs", "text", "user",
        [("has_file", MetaVal.boolV true)]⟩ ∧
    (process_message true
      { envBase with
        route := "pdf_listing"
        fileOutcome := FileOutcome.ok "CONTENT" "pdf" "a.pdf" }
      "show pdfs" (some "a.pdf") initialState).1.messages.head? =
      some ⟨"show pdfs", "text", "user",
        [("has_file", MetaVal.boolV true),
         ("file_content", MetaVal.strV "CONTENT"),
         ("file_type", MetaVal.strV "pdf"),
         ("filename", MetaVal.strV "a.pdf")]⟩ := by
  exact ⟨by decide, by decide, by decide⟩

/-- C5 (amended): across `process_message` calls the log is append-only
(the previous turns survive unchanged as a prefix, nothing is removed);
every call appends the user turn, optionally one assistant turn tagged
with the route, and the only in-place change is to the metadata of the
user turn appended in the SAME call (file fields), never to its content
or role and never to older turns. -/
theorem c5_append_only_amended (cc : Bool) (env : Env) (m : String)
    (f : Option String) (st : SupervisorState) :
    st.messages <+: (process_message cc env m f st).1.messages ∧
    ∃ md tail, (process_message cc env m f st).1.messages =
      st.messages ++ (⟨m, "text", "user", md⟩ : Message) :: tail ∧
      (tail = [] ∨ ∃ resp, tail =
        [⟨resp, "text", "assistant", [("agent", MetaVal.strV env.route)]⟩]) := by
  obtain ⟨md, tail, h1, h2⟩ := process_messages_shape cc env m f st
  exact ⟨⟨_, h1.symm⟩, md, tail, h1, h2⟩

/-! ## C6: title defaults -/

/-- C6 (counterexample): an assignment request without a `title:` marker
stages a PendingAction whose title is Python `None`, NOT the literal
`Assignment` the claim promises (the quiz handler does default to
`Quiz`). -/
theorem c6_title_default_counterexample :
    extract_title "[CS101] create an assignment about trees" = none ∧
    (process_message true { envBase with route := "canvas_assignment" }
      "[CS101] create an assignment about trees" none
      initialState).1.pending_assignment =
      some ⟨"CS101", "CLEAN", none, 100, ["online_text_entry"], none, none⟩ ∧
    (some (⟨"CS101", "CLEAN", none, 100, ["online_text_entry"], none, none⟩ :
        PendingAssignment)) ≠
      some ⟨"CS101", "CLEAN", some "Assignment", 100, ["online_text_entry"],
        none, none⟩ := by
  exact ⟨by decide, by decide, by decide⟩

/-- C6 (amended): without a `title:` marker the staged quiz title falls
back to the literal `Quiz`; the staged announcement title is the
model-generated one (the stripped LLM reply, or the fixed string
`Generated Content` when generation raises); the staged assignment title
gets NO default and is stored as Python `None`. -/
theorem c6_title_defaults_amended (env : Env) (m : String) (s : String)
    (st : SupervisorState) (c : String)
    (hT : extract_title m = none)
    (hB : firstBracket m.data = some c) :
    (handleQuizRequest true env m st).1.pending_quiz =
      some ⟨c, env.cleaned, "Quiz"⟩ ∧
    (handlePostRequest true env m (ContentArg.text s) st).1.pending_announcement =
      some ⟨c, env.cleaned, generate_title env.genTitleLLM, none, none⟩ ∧
    (handleAssignmentRequest true env m (ContentArg.text s) st).1.pending_assignment =
      some ⟨c, env.cleaned, none, (matchPoints m.data).getD 100,
        parse_submission_types m, none, none⟩ ∧
    generate_title none = "Generated Content" := by
  refine ⟨?_, ?_, ?_, rfl⟩
  · unfold handleQuizRequest
    rw [hB]
    simp [hT]
  · unfold handlePostRequest
    rw [hB]
    simp [hT]
  · unfold handleAssignmentRequest
    rw [hB]
    simp [hT]

/-- C6 (witness): concrete defaults for a marker-free message. -/
theorem c6_title_defaults_witness :
    (handleQuizRequest true envBase "[CS101] make something"
      initialState).1.pending_quiz = some ⟨"CS101", "CLEAN", "Quiz"⟩ ∧
    (handlePostRequest true envBase "[CS101] make something"
      (ContentArg.text "") initialState).1.pending_announcement =
      some ⟨"CS101", "CLEAN", "Generated Content", none, none⟩ := by
  have h := c6_title_defaults_amended envBase "[CS101] make something" ""
    initialState "CS101" (by decide) (by decide)
  exact ⟨h.1, h.2.1⟩

/-! ## C7: due-date extraction -/

/-- C7 (counterexample): the message carries a due date that
`parse_due_date` can parse and normalise to a UTC instant, yet the staged
assignment holds no due date at all (its dict has no due field) and the
Canvas create-assignment payload contains no `due_at` key: the parsed
instant never reaches the action parameters. -/
theorem c7_due_date_counterexample :
    parse_due_date "[Bio201] create an assignment due 12/07/2024 10:00 PM" =
      some "2024-12-07T22:00:00Z" ∧
    (process_message true { envBase with route := "canvas_assignment" }
      "[Bio201] create an assignment due 12/07/2024 10:00 PM" none
      initialState).1.pending_assignment =
      some ⟨"Bio201", "CLEAN", none, 100, ["online_text_entry"], none, none⟩ ∧
    (create_assignment_payload "Lab" "Desc" 100
        (parse_due_date "[Bio201] create an assignment due 12/07/2024 10:00 PM")
        (some ["online_text_entry"])).all
      (fun kv => !(kv.1 == "due_at")) = true := by
  exact ⟨by decide, by decide, by decide⟩

/-- C7 (amended): `AssignmentAgent.parse_due_date` does parse
`due [date|on|by] MM/DD/YYYY hh:mm AM|PM` into an absolute UTC instant
and maps every malformed date (the value-invalid `13/40/2099 25:99 AM`,
the impossible calendar day `2/29/2023`, and a date whose AM/PM marker
is glued to the minutes, where the capture regex matches but `strptime`
requires a whitespace and raises) to `none` rather than an error; but
the supervisor never calls it while staging, and `create_assignment`
never writes any due key into the API payload, so no due date is ever
set in the action parameters. -/
theorem c7_due_date_amended :
    parse_due_date "due 12/07/2024 10:00 PM" = some "2024-12-07T22:00:00Z" ∧
    parse_due_date "due date should be 13/40/2099 25:99 AM" = none ∧
    parse_due_date "due by 2/29/2023 11:59 pm" = none ∧
    parse_due_date "due 12/07/2024 10:00PM" = none ∧
    (∀ (n d : String) (p : Nat) (dd : Option String)
        (subs : Option (List String)),
      (create_assignment_payload n d p dd subs).all
        (fun kv => !(kv.1 == "due_at")) = true) := by
  refine ⟨by decide, by decide, by decide, by decide, ?_⟩
  intro n d p dd subs
  rfl

/-! ## C8: submission-type lookup -/

/-- C8 (counterexample): the table has no key `url`; a query naming just
`url` matches no key phrase and falls back to the default online text
entry instead of the online-URL type the claim promises. -/
theorem c8_submission_url_counterexample :
    containsL (lowerStr "submission type should be url").data
      ['u', 'r', 'l'] = true ∧
    parse_submission_types "submission type should be url" =
      ["online_text_entry"] ∧
    (["online_text_entry"] : List String) ≠ ["online_url"] := by
  exact ⟨by decide, by decide, by decide⟩

/-- C8 (amended): the lookup is keyed by the multi-word phrases of
`SUBMISSION_TYPES` (it is `website url`, not `url`, that yields the
single online-URL type): a query matching no key phrase yields exactly
the default `online_text_entry`, and a query whose only matching phrase
is `website url` yields exactly `online_url`. -/
theorem c8_submission_lookup_amended (q1 q2 : String)
    (h1 : matchedSubmissionKeys q1 = [])
    (h2 : matchedSubmissionKeys q2 = [("website url", ["online_url"])]) :
    parse_submission_types q1 = ["online_text_entry"] ∧
    parse_submission_types q2 = ["online_url"] := by
  unfold parse_submission_types
  rw [h1, h2]
  exact ⟨by decide, by decide⟩

/-- C8 (witness): concrete queries for both cases. -/
theorem c8_submission_lookup_witness :
    parse_submission_types "anything else" = ["online_text_entry"] ∧
    parse_submission_types "submission type should be website url" =
      ["online_url"] :=
  c8_submission_lookup_amended "anything else"
    "submission type should be website url" (by decide) (by decide)

/-! ## C9: priority among coexisting pending kinds -/

/-- C9 (counterexample): with a quiz AND an announcement staged, the
confirmation `yes` whose Canvas call raises resolves NEITHER pending
action: the selected quiz stays staged (the exception path skips the
clear) and the announcement stays staged, refuting that a confirmation
always resolves exactly one of them. -/
theorem c9_priority_counterexample :
    (process_message true { envBase with exec := ExecOutcome.raised "boom" }
      "yes" none
      ⟨[], some ⟨"CS101", "Q", "Quiz"⟩,
        some ⟨"CS101", "ANN", "T", none, none⟩, none, none⟩).1.pending_quiz =
      some ⟨"CS101", "Q", "Quiz"⟩ ∧
    (process_message true { envBase with exec := ExecOutcome.raised "boom" }
      "yes" none
      ⟨[], some ⟨"CS101", "Q", "Quiz"⟩,
        some ⟨"CS101", "ANN", "T", none, none⟩, none,
        none⟩).1.pending_announcement =
      some ⟨"CS101", "ANN", "T", none, none⟩ := by
  exact ⟨by decide, by decide⟩

/-- C9 (amended): when several kinds are staged, both vocabularies select
the first staged kind in the fixed order quiz, announcement, assignment,
page and leave every other slot untouched; a cancellation always clears
the selected slot, and a confirmation clears it exactly when the
execution oracle reaches the clearing statement (no raised exception,
and a found course for assignments). -/
theorem c9_priority_amended
    (m1 : String) (f1 : Option String) (env1 : Env) (st1 : SupervisorState)
    (k1 : Kind) (hk1 : selectPending st1 = some k1)
    (hc1 : confirmList.contains (lowerStr m1) = true)
    (m2 : String) (f2 : Option String) (env2 : Env) (st2 : SupervisorState)
    (k2 : Kind) (hk2 : selectPending st2 = some k2)
    (hc2 : cancelList.contains (lowerStr m2) = true) :
    (pendingEqExceptB st1 (process_message true env1 m1 f1 st1).1 k1 = true ∧
     (execNormalFor env1 k1 = true →
       slotBusy (process_message true env1 m1 f1 st1).1 k1 = false)) ∧
    (pendingEqExceptB st2 (process_message true env2 m2 f2 st2).1 k2 = true ∧
     slotBusy (process_message true env2 m2 f2 st2).1 k2 = false) := by
  refine ⟨⟨?_, ?_⟩, ?_⟩
  · rw [confirm_dispatch true env1 m1 f1 st1 k1 hc1 hk1]
    cases k1 with
    | quiz =>
      obtain ⟨h1, h2, h3, _⟩ :=
        quizConf_frame true env1 (appendUserTurn st1 m1 f1)
      simp [pendingEqExceptB, confirmHandlerFor, h1, h2, h3,
        appendUserTurn_pending_announcement, appendUserTurn_pending_assignment,
        appendUserTurn_pending_page]
    | announcement =>
      obtain ⟨h1, h2, h3, _⟩ :=
        annConf_frame true env1 (appendUserTurn st1 m1 f1)
      simp [pendingEqExceptB, confirmHandlerFor, h1, h2, h3,
        appendUserTurn_pending_quiz, appendUserTurn_pending_assignment,
        appendUserTurn_pending_page]
    | assignment =>
      obtain ⟨h1, h2, h3, _⟩ :=
        asgmtConf_frame true env1 (appendUserTurn st1 m1 f1)
      simp [pendingEqExceptB, confirmHandlerFor, h1, h2, h3,
        appendUserTurn_pending_quiz, appendUserTurn_pending_announcement,
        appendUserTurn_pending_page]
    | page =>
      obtain ⟨h1, h2, h3, _⟩ :=
        pageConf_frame true env1 (appendUserTurn st1 m1 f1)
      simp [pendingEqExceptB, confirmHandlerFor, h1, h2, h3,
        appendUserTurn_pending_quiz, appendUserTurn_pending_announcement,
        appendUserTurn_pending_assignment]
  · intro hn
    rw [confirm_dispatch true env1 m1 f1 st1 k1 hc1 hk1]
    have hb := select_busy st1 k1 hk1
    cases k1 with
    | quiz =>
      rcases quizConf_clears env1 (appendUserTurn st1 m1 f1) hn with h | h
      · simp [confirmHandlerFor, slotBusy, h]
      · rw [appendUserTurn_pending_quiz] at h
        simp [slotBusy, h] at hb
    | announcement =>
      rcases annConf_clears env1 (appendUserTurn st1 m1 f1) hn with h | h
      · simp [confirmHandlerFor, slotBusy, h]
      · rw [appendUserTurn_pending_announcement] at h
        simp [slotBusy, h] at hb
    | assignment =>
      rcases asgmtConf_clears env1 (appendUserTurn st1 m1 f1) hn with h | h
      · simp [confirmHandlerFor, slotBusy, h]
      · rw [appendUserTurn_pending_assignment] at h
        simp [slotBusy, h] at hb
    | page =>
      rcases pageConf_clears env1 (appendUserTurn st1 m1 f1) hn with h | h
      · simp [confirmHandlerFor, slotBusy, h]
      · rw [appendUserTurn_pending_page] at h
        simp [slotBusy, h] at hb
  · rw [cancel_dispatch true env2 m2 f2 st2 hc2]
    exact cancel_resolves (appendUserTurn st2 m2 f2) k2 hk2

/-- C9 (witness): confirming with a quiz and an announcement staged and a
successful execution clears exactly the quiz; cancelling with only an
announcement staged clears it and leaves the other slots as they were. -/
theorem c9_priority_witness :
    slotBusy (process_message true envBase "yes" none
      ⟨[], some ⟨"CS101", "Q", "Quiz"⟩, some ⟨"C", "A", "T", none, none⟩,
        none, none⟩).1 Kind.quiz = false ∧
    pendingEqExceptB ⟨[], none, some ⟨"C", "A", "T", none, none⟩, none, none⟩
      (process_message true envBase "no" none
        ⟨[], none, some ⟨"C", "A", "T", none, none⟩, none, none⟩).1
      Kind.announcement = true := by
  have h := c9_priority_amended "yes" none envBase
    ⟨[], some ⟨"CS101", "Q", "Quiz"⟩, some ⟨"C", "A", "T", none, none⟩,
      none, none⟩
    Kind.quiz (by decide) (by decide)
    "no" none envBase
    ⟨[], none, some ⟨"C", "A", "T", none, none⟩, none, none⟩
    Kind.announcement (by decide) (by decide)
  exact ⟨h.1.2 (by decide), h.2.1⟩

/-! ## C10: which responses are appended to the history -/

/-- C10: only responses produced through the routing dispatch are appended
to the log as assistant turns (tagged with the route); responses to
confirmation tokens with something pending, to cancellation tokens, and
to file-processing failures are returned without an assistant append, so
`get_conversation_history` still contains the triggering user messages
but omits those assistant responses. -/
theorem c10_history_omissions
    (cc1 : Bool) (env1 : Env) (m1 : String) (f1 : Option String)
    (st1 : SupervisorState)
    (h1a : confirmList.contains (lowerStr m1) = true)
    (h1b : somePendingB st1 = true)
    (cc2 : Bool) (env2 : Env) (m2 : String) (f2 : Option String)
    (st2 : SupervisorState)
    (h2 : cancelList.contains (lowerStr m2) = true)
    (cc3 : Bool) (env3 : Env) (m3 : String) (fname3 : String)
    (st3 : SupervisorState) (e3 : String)
    (h3a : (confirmList.contains (lowerStr m3) && somePendingB st3) = false)
    (h3b : cancelList.contains (lowerStr m3) = false)
    (h3c : env3.fileOutcome = FileOutcome.err e3)
    (cc4 : Bool) (env4 : Env) (m4 : String) (f4 : Option String)
    (st4 : SupervisorState) :
    get_conversation_history (process_message cc1 env1 m1 f1 st1).1 =
      get_conversation_history st1 ++
        [⟨"user", m1, [("has_file", MetaVal.boolV f1.isSome)]⟩] ∧
    get_conversation_history (process_message cc2 env2 m2 f2 st2).1 =
      get_conversation_history st2 ++
        [⟨"user", m2, [("has_file", MetaVal.boolV f2.isSome)]⟩] ∧
    get_conversation_history
        (process_message cc3 env3 m3 (some fname3) st3).1 =
      get_conversation_history st3 ++
        [⟨"user", m3, [("has_file", MetaVal.boolV true)]⟩] ∧
    (∃ md tail, (process_message cc4 env4 m4 f4 st4).1.messages =
      st4.messages ++ (⟨m4, "text", "user", md⟩ : Message) :: tail ∧
      (tail = [] ∨ ∃ resp, tail =
        [⟨resp, "text", "assistant", [("agent", MetaVal.strV env4.route)]⟩])) := by
  refine ⟨?_, ?_, ?_, process_messages_shape cc4 env4 m4 f4 st4⟩
  · obtain ⟨k, hk⟩ := somePending_select st1 h1b
    rw [confirm_dispatch cc1 env1 m1 f1 st1 k h1a hk]
    cases k with
    | quiz =>
      unfold get_conversation_history confirmHandlerFor
      rw [(quizConf_frame cc1 env1 (appendUserTurn st1 m1 f1)).2.2.2]
      simp [appendUserTurn]
    | announcement =>
      unfold get_conversation_history confirmHandlerFor
      rw [(annConf_frame cc1 env1 (appendUserTurn st1 m1 f1)).2.2.2]
      simp [appendUserTurn]
    | assignment =>
      unfold get_conversation_history confirmHandlerFor
      rw [(asgmtConf_frame cc1 env1 (appendUserTurn st1 m1 f1)).2.2.2]
      simp [appendUserTurn]
    | page =>
      unfold get_conversation_history confirmHandlerFor
      rw [(pageConf_frame cc1 env1 (appendUserTurn st1 m1 f1)).2.2.2]
      simp [appendUserTurn]
  · rw [cancel_dispatch cc2 env2 m2 f2 st2 h2]
    unfold get_conversation_history
    rw [cancel_frame (appendUserTurn st2 m2 f2)]
    simp [appendUserTurn]
  · rw [fileError_aborts cc3 env3 m3 fname3 st3 e3 h3a h3b h3c]
    unfold get_conversation_history
    simp [appendUserTurn]

/-- C10 (witness): a confirmation with a staged quiz leaves only the user
turn in the history. -/
theorem c10_history_omissions_witness :
    get_conversation_history (process_message true envBase "yes" none
      ⟨[], some ⟨"CS101", "Q", "Quiz"⟩, none, none, none⟩).1 =
      [⟨"user", "yes", [("has_file", MetaVal.boolV false)]⟩] := by
  have h := c10_history_omissions true envBase "yes" none
    ⟨[], some ⟨"CS101", "Q", "Quiz"⟩, none, none, none⟩ (by decide) (by decide)
    true envBase "no" none initialState (by decide)
    true envBase "hello" "a.pdf" initialState "E" (by decide) (by decide) rfl
    true envBase "hey" none initialState
  exact h.1.trans (by decide)
